import Mathlib

/-! The class `CommonStealthSession<LoggerT>` of uberstealth.

A shallow embedding of `src/uberstealth/CommonStealthSession.h`.

The class orchestrates collaborators that live in other headers (driver
controllers, the process/IAT/injection helpers, the configuration-exchange
writer, the logger and the Win32 API).  Every interaction with a collaborator
is recorded, in program order, in a trace of `Event`s; what a collaborator
answers (a returned value, or a C++ exception) is supplied by an environment
`Env` that may inspect the whole history of the interaction so far.  The member
functions of the class become functions in the monad `Exec`, which threads the
object's fields, collects the events and propagates C++ exceptions.
-/

namespace uberstealth

/-! ## Values -/

/-- Win32 `HANDLE`, read as a signed pointer-sized integer. -/
abbrev HANDLE := Int

/-- Win32 `INVALID_HANDLE_VALUE`, i.e. `(HANDLE)(LONG_PTR)-1`. -/
def INVALID_HANDLE_VALUE : HANDLE := -1

/-- Conversion to the 32-bit `DWORD` type. -/
def DWORD (x : Nat) : Nat := x % 2 ^ 32

/-- Conversion to the 32-bit `unsigned int` type. -/
def toUnsignedInt (x : Nat) : Nat := x % 2 ^ 32

/-- The value of `sizeof(unsigned int)` on the Windows targets of the project. -/
def sizeofUnsignedInt : Nat := 4

/-- A C++ exception object in flight.  `isStdException` tells whether its type
derives from `std::exception` (so that `catch (const std::exception&)` matches),
`isMemoryAccessException` whether `catch (const MemoryAccessException&)`
matches, and `what` is the text of `what()`. -/
structure CppException where
  isStdException : Bool
  isMemoryAccessException : Bool
  what : String
deriving DecidableEq, Repr

/-- The exception object built by `std::runtime_error(msg)`. -/
def runtime_error (msg : String) : CppException :=
  { isStdException := true, isMemoryAccessException := false, what := msg }

/-- The enumeration `RDTSCMode` of the profile; the session only tests a mode
against `constant`. -/
inductive RDTSCMode where
  | constant
  | increasing
deriving DecidableEq, Repr

/-- The enumerators of `StealthHook` that the session passes to the hook driver. -/
inductive StealthHook where
  | SH_NtSetInformationThread
  | SH_NtQueryInformationProcess
deriving DecidableEq, Repr

/-- An embedded driver binary (`ResourceItem`), identified by a number. -/
structure ResourceItem where
  id : Nat
deriving DecidableEq, Repr

/-- The image's `IMAGE_NT_HEADERS`, as raw bytes. -/
abbrev IMAGE_NT_HEADERS := List Nat

/-- The value `IPCPEHeaderData(imageBase, ntHeaders)`. -/
structure IPCPEHeaderData where
  imageBase : Nat
  ntHeaders : IMAGE_NT_HEADERS
deriving DecidableEq, Repr

/-- The getters of `HideDebuggerProfile` that the session reads. -/
structure HideDebuggerProfile where
  getEnableDbgAttachEnabled : Bool
  getEnableDbgStartEnabled : Bool
  getRtlGetNtGlobalFlagsEnabled : Bool
  getRDTSCDriverLoad : Bool
  getRDTSCDriverUnload : Bool
  getRDTSCDriverCustomName : String
  getRDTSCDriverMode : RDTSCMode
  getRDTSCDriverDelta : Nat
  getStealthDriverLoad : Bool
  getStealthDriverUnload : Bool
  getStealthDriverCustomName : String
  getStealthDriverNtSetInformationThread : Bool
  getStealthDriverNtQueryInformationProcess : Bool
deriving DecidableEq, Repr

/-- Modelled from the spec: the class `IPCConfigExchangeWriter` (its header is
not part of the sources).  Following §4.5 it is write-only: the object is keyed
by the target process identifier and each setter stores the value it is given. -/
structure IPCConfigExchangeWriter where
  processId : Nat
  profileFile : Option String
  peHeaderData : Option IPCPEHeaderData
  peRestoreRequired : Option Bool
deriving DecidableEq, Repr

/-- The two `DriverControl` members of the session. -/
inductive Driver where
  | rdtscDriver_
  | stealthDriver_
deriving DecidableEq, Repr

/-- The parameter buffer handed to `DriverControl::setMode`: the object the
pointer argument points to. -/
inductive ParamBuffer where
  | uint (value : Nat)
  | hook (mode : StealthHook)
deriving DecidableEq, Repr

/-! ## Interaction with the collaborators -/

/-- How a call ended: it returned a value or it raised a C++ exception. -/
inductive Outcome (α : Type) where
  | returned (a : α)
  | raised (e : CppException)
deriving DecidableEq, Repr

/-- The calls into collaborators that may raise an exception. -/
inductive Call where
  /-- The call `boost::make_shared<InjectionBeacon>(processId)`. -/
  | beaconCreate (processId : Nat)
  /-- The call `DriverControl::startDriver(resource, name)`. -/
  | startDriver (d : Driver) (resource : ResourceItem) (name : String)
  /-- The call `DriverControl::setMode(ioctlCode, &param, size)`. -/
  | setMode (d : Driver) (ioctlCode : Nat) (param : ParamBuffer) (size : Nat)
  /-- The call `DriverControl::stopDriver()`. -/
  | stopDriver (d : Driver)
  /-- The declaration `Process process(processId)`. -/
  | processCtor (processId : Nat)
  /-- The call `process.writeMemory(address, bytes, size)` on the process `processId`. -/
  | writeMemory (processId : Nat) (address : Nat) (bytes : List Nat) (size : Nat)
  /-- The declaration `IATModifier iatMod(process)`. -/
  | iatModifierCtor (processId : Nat)
  /-- The call `iatMod.setImageBase(baseAddress)`. -/
  | setImageBase (baseAddress : Nat)
  /-- The call `boost::make_shared<IPCConfigExchangeWriter>(processId)`. -/
  | ipcCreate (processId : Nat)
  /-- The call `ipc_->setProfileFile(path)`. -/
  | setProfileFile (path : String)
  /-- The call `ipc_->setIPCPEHeaderData(data)`. -/
  | setIPCPEHeaderData (data : IPCPEHeaderData)
  /-- The call `ipc_->setPERestoreRequired(flag)`. -/
  | setPERestoreRequired (flag : Bool)
  /-- The call `iatMod.writeIAT(dllPath)`. -/
  | writeIAT (dllPath : String)
  /-- The declaration `InjectLibrary injector(dllPath, process)`. -/
  | injectLibraryCtor (dllPath : String) (processId : Nat)
deriving DecidableEq, Repr

/-- One step of the interaction between the session and its collaborators. -/
inductive Event where
  /-- A call that returns nothing, with how it ended. -/
  | call (c : Call) (outcome : Outcome Unit)
  /-- The call `iatMod.readNTHeaders()`, with how it ended. -/
  | readNTHeaders (outcome : Outcome IMAGE_NT_HEADERS)
  /-- The call `injector.injectLib()`, with how it ended. -/
  | injectLib (outcome : Outcome Bool)
  /-- The call `driver.isRunning()` and its answer. -/
  | isRunning (d : Driver) (answer : Bool)
  /-- The call `driver.getDriverPath()` and its answer. -/
  | getDriverPath (d : Driver) (answer : String)
  /-- The call `logger_.logString(format, args...)`. -/
  | logString (format : String) (args : List String)
  /-- The call `OpenProcess(PROCESS_ALL_ACCESS, FALSE, processId)` and the handle returned. -/
  | OpenProcess (processId : Nat) (result : HANDLE)
  /-- The call `CloseHandle(handle)`. -/
  | CloseHandle (handle : HANDLE)
  /-- The call `LoadLibrary(name)` and the module handle returned. -/
  | LoadLibrary (name : String) (result : Nat)
  /-- The call `GetProcAddress(module, name)` and the address returned (`0` is `NULL`). -/
  | GetProcAddress (module : Nat) (name : String) (result : Nat)
  /-- The call `FreeLibrary(module)`. -/
  | FreeLibrary (module : Nat)
  /-- The expression `boost::thread(boost::bind(&CommonStealthSession::dbgAttachThread, this, processId))`:
  a thread is launched to run `dbgAttachThread(processId)`. -/
  | threadLaunch (processId : Nat)
deriving DecidableEq, Repr

/-- Everything the class takes from outside: the overrides of its pure virtual
accessors, the constants of the driver headers, and the answers of the
collaborators.  An answer may depend on the history of events so far. -/
structure Env where
  /-- The override of `getRDTSCDriverResource()`. -/
  getRDTSCDriverResource : ResourceItem
  /-- The override of `getStealthDriverResource()`. -/
  getStealthDriverResource : ResourceItem
  /-- The override of `getStealthDllPath()`. -/
  getStealthDllPath : String
  /-- The macro of `RDTSCEmu.h`. -/
  IOCTL_RDTSCEMU_METHOD_ALWAYS_CONST : Nat
  /-- The macro of `RDTSCEmu.h`. -/
  IOCTL_RDTSCEMU_METHOD_INCREASING : Nat
  /-- The macro of `StealthDriver.h`. -/
  IOCTL_STEALTHDRIVER_ENABLE_HOOKS : Nat
  /-- The value of `sizeof(StealthHook)`. -/
  sizeofStealthHook : Nat
  /-- Whether a call raises, and what. -/
  raises : List Event → Call → Option CppException
  /-- The answer of `iatMod.readNTHeaders()`. -/
  readNTHeaders : List Event → Outcome IMAGE_NT_HEADERS
  /-- The answer of `injector.injectLib()`. -/
  injectLib : List Event → Outcome Bool
  /-- The answer of `isRunning()`. -/
  isRunning : List Event → Driver → Bool
  /-- The answer of `getDriverPath()`. -/
  getDriverPath : List Event → Driver → String
  /-- The handle returned by `OpenProcess`. -/
  OpenProcess : List Event → Nat → HANDLE
  /-- The module handle returned by `LoadLibrary`. -/
  LoadLibrary : List Event → String → Nat
  /-- The address returned by `GetProcAddress`. -/
  GetProcAddress : List Event → Nat → String → Nat

/-! ## The object and the execution monad -/

/-- The data members of `CommonStealthSession` (the driver controllers and the
logger are collaborators, reached through events). -/
structure Session where
  hProcess_ : HANDLE
  profilePath_ : String
  currentProfile_ : HideDebuggerProfile
  ipc_ : Option IPCConfigExchangeWriter
  injectionBeacon_ : Option Nat
deriving DecidableEq, Repr

/-- What running a piece of code gives: how it ended, the data members
afterwards, and the events it produced, in program order. -/
structure Result (α : Type) where
  outcome : Outcome α
  self : Session
  events : List Event
deriving DecidableEq, Repr

/-- A computation of the class.  It is run on the history of the events that
precede it and on the current data members. -/
def Exec (α : Type) : Type := List Event → Session → Result α

/-- Run a computation after the history `hist`, on the object `self`. -/
def Exec.run {α : Type} (m : Exec α) (hist : List Event) (self : Session) : Result α :=
  m hist self

/-- Return normally. -/
def Exec.ret {α : Type} (a : α) : Exec α := fun _ self =>
  { outcome := .returned a, self := self, events := [] }

/-- Put the events `evs` in front of the events of a result. -/
def Result.after {α : Type} (evs : List Event) (r : Result α) : Result α :=
  { r with events := evs ++ r.events }

/-- Sequencing: the second part runs after the events of the first, and an
exception of the first part skips the second. -/
def Exec.andThen {α β : Type} (m : Exec α) (f : α → Exec β) : Exec β := fun hist self =>
  match m hist self with
  | ⟨.returned a, self1, evs⟩ => (f a (hist ++ evs) self1).after evs
  | ⟨.raised e, self1, evs⟩ => { outcome := .raised e, self := self1, events := evs }

instance : Monad Exec where
  pure := Exec.ret
  bind := Exec.andThen

/-- The statement `throw e`. -/
def throwCpp {α : Type} (e : CppException) : Exec α := fun _ self =>
  { outcome := .raised e, self := self, events := [] }

/-- Read the data members. -/
def getSelf : Exec Session := fun _ self =>
  { outcome := .returned self, self := self, events := [] }

/-- Assign data members. -/
def modifySelf (f : Session → Session) : Exec Unit := fun _ self =>
  { outcome := .returned (), self := f self, events := [] }

/-- Record an interaction that cannot raise. -/
def emit (ev : Event) : Exec Unit := fun _ self =>
  { outcome := .returned (), self := self, events := [ev] }

/-- Make a call that may raise. -/
def call (E : Env) (c : Call) : Exec Unit := fun hist self =>
  match E.raises hist c with
  | none => { outcome := .returned (), self := self, events := [.call c (.returned ())] }
  | some e => { outcome := .raised e, self := self, events := [.call c (.raised e)] }

/-- The block `try { body } catch (T& e) { handler }`, where `matchesT` tells
whether an exception is caught by the handler's type `T`. -/
def tryCatch (body : Exec Unit) (matchesT : CppException → Bool)
    (handler : CppException → Exec Unit) : Exec Unit := fun hist self =>
  match body hist self with
  | ⟨.returned a, self1, evs⟩ => { outcome := .returned a, self := self1, events := evs }
  | ⟨.raised e, self1, evs⟩ =>
    if matchesT e then (handler e (hist ++ evs) self1).after evs
    else { outcome := .raised e, self := self1, events := evs }

/-- The call `logger_.logString(format, args...)`: the format string and the
arguments are recorded as they are passed. -/
def logString (format : String) (args : List String) : Exec Unit :=
  emit (.logString format args)

/-- The call `iatMod.readNTHeaders()`. -/
def readNTHeaders (E : Env) : Exec IMAGE_NT_HEADERS := fun hist self =>
  { outcome := E.readNTHeaders hist, self := self,
    events := [.readNTHeaders (E.readNTHeaders hist)] }

/-- The call `injector.injectLib()`. -/
def injectLib (E : Env) : Exec Bool := fun hist self =>
  { outcome := E.injectLib hist, self := self, events := [.injectLib (E.injectLib hist)] }

/-- Modelled from the spec: `DriverControl::isRunning()` (the header is not part
of the sources) reports the last known state of the controller (§4.2); the
answer is taken from the environment and the call does not raise. -/
def isRunning (E : Env) (d : Driver) : Exec Bool := fun hist self =>
  { outcome := .returned (E.isRunning hist d), self := self,
    events := [.isRunning d (E.isRunning hist d)] }

/-- The call `driver.getDriverPath()`, a getter of `DriverControl`: the answer
is taken from the environment and the call does not raise. -/
def getDriverPath (E : Env) (d : Driver) : Exec String := fun hist self =>
  { outcome := .returned (E.getDriverPath hist d), self := self,
    events := [.getDriverPath d (E.getDriverPath hist d)] }

/-- The call `OpenProcess(PROCESS_ALL_ACCESS, FALSE, processID)`. -/
def OpenProcess (E : Env) (processID : Nat) : Exec HANDLE := fun hist self =>
  { outcome := .returned (E.OpenProcess hist processID), self := self,
    events := [.OpenProcess processID (E.OpenProcess hist processID)] }

/-- The call `LoadLibrary(name)`. -/
def LoadLibrary (E : Env) (name : String) : Exec Nat := fun hist self =>
  { outcome := .returned (E.LoadLibrary hist name), self := self,
    events := [.LoadLibrary name (E.LoadLibrary hist name)] }

/-- The call `GetProcAddress(module, name)`. -/
def GetProcAddress (E : Env) (module : Nat) (name : String) : Exec Nat := fun hist self =>
  { outcome := .returned (E.GetProcAddress hist module name), self := self,
    events := [.GetProcAddress module name (E.GetProcAddress hist module name)] }

/-! ## The member functions -/

/-- The method `handleRtlGetNtGlobalFlags(processID)`. -/
def handleRtlGetNtGlobalFlags (E : Env) (processID : Nat) : Exec Unit := do
  let self ← getSelf
  if !self.currentProfile_.getRtlGetNtGlobalFlagsEnabled then
    return
  -- Assume that ntdll is loaded to the same IBA across processes on ASLR systems.
  let hNtDll ← LoadLibrary E "ntdll.dll"
  let address ← GetProcAddress E hNtDll "RtlGetNtGlobalFlags"
  if address ≠ 0 then
    -- xor eax, eax; retn
    let opcodes : List Nat := [0x31, 0xC0, 0xC3]
    tryCatch
      (do
        call E (.processCtor processID)
        call E (.writeMemory processID address opcodes 3))
      (fun e => e.isMemoryAccessException)
      (fun e => logString "Error while trying to patch RtlGetNtGlobalFlags: %s.\n" [e.what])
  emit (.FreeLibrary hNtDll)

/-- The method `startDrivers()`. -/
def startDrivers (E : Env) : Exec Unit := do
  tryCatch
    (do
      let self ← getSelf
      if self.currentProfile_.getRDTSCDriverLoad then
        let drvResource := E.getRDTSCDriverResource
        let rdtscName := self.currentProfile_.getRDTSCDriverCustomName
        call E (.startDriver .rdtscDriver_ drvResource rdtscName)
        let mode := self.currentProfile_.getRDTSCDriverMode
        let param : Nat :=
          toUnsignedInt (if mode = .constant then 0 else self.currentProfile_.getRDTSCDriverDelta)
        let ioctlCode : Nat :=
          if mode = .constant then DWORD E.IOCTL_RDTSCEMU_METHOD_ALWAYS_CONST
          else DWORD E.IOCTL_RDTSCEMU_METHOD_INCREASING
        call E (.setMode .rdtscDriver_ ioctlCode (.uint param) sizeofUnsignedInt)
        let path ← getDriverPath E .rdtscDriver_
        logString "Successfully started RDTSC emulation driver from %s.\n" [path])
    (fun e => e.isStdException)
    (fun e => logString "Error while trying to load RDTSC driver: %s.\n" [e.what])
  tryCatch
    (do
      let self ← getSelf
      if self.currentProfile_.getStealthDriverLoad then
        let stealthDrvResource := E.getStealthDriverResource
        let stealthName := self.currentProfile_.getStealthDriverCustomName
        call E (.startDriver .stealthDriver_ stealthDrvResource stealthName)
        let path ← getDriverPath E .stealthDriver_
        logString "Successfully started stealth driver from %s.\n" [path]
        if self.currentProfile_.getStealthDriverNtSetInformationThread then
          let mode := StealthHook.SH_NtSetInformationThread
          call E (.setMode .stealthDriver_ E.IOCTL_STEALTHDRIVER_ENABLE_HOOKS (.hook mode)
            E.sizeofStealthHook)
        if self.currentProfile_.getStealthDriverNtQueryInformationProcess then
          let mode := StealthHook.SH_NtQueryInformationProcess
          call E (.setMode .stealthDriver_ E.IOCTL_STEALTHDRIVER_ENABLE_HOOKS (.hook mode)
            E.sizeofStealthHook))
    (fun e => e.isStdException)
    (fun e => logString "Error while trying to load stealth driver: %s.\n" [e.what])

/-- The method `stopDrivers()`. -/
def stopDrivers (E : Env) : Exec Unit := do
  let self ← getSelf
  if self.currentProfile_.getRDTSCDriverUnload then
    tryCatch
      (do
        let wasRunning ← isRunning E .rdtscDriver_
        call E (.stopDriver .rdtscDriver_)
        if wasRunning then logString "Successfully unloaded RDTSC emulation driver" [])
      (fun e => e.isStdException)
      (fun e => logString "Error while trying to stop RDTSC driver: %s\n" [e.what])
  if self.currentProfile_.getStealthDriverUnload then
    tryCatch
      (do
        let wasRunning ← isRunning E .stealthDriver_
        call E (.stopDriver .stealthDriver_)
        if wasRunning then logString "Successfully unloaded stealth driver.\n" [])
      (fun e => e.isStdException)
      (fun e => logString "Error while trying to stop stealth driver: %s.\n" [e.what])

/-- The method `acquireProcessHandle(processID)`. -/
def acquireProcessHandle (E : Env) (processID : Nat) : Exec Unit := do
  let h ← OpenProcess E processID
  modifySelf (fun self => { self with hProcess_ := h })
  if h = INVALID_HANDLE_VALUE then
    throwCpp (runtime_error "Unable to obtain process handle from debuggee.")

/-- The method `performCommonInit(processID)`. -/
def performCommonInit (E : Env) (processID : Nat) : Exec Unit := do
  startDrivers E
  acquireProcessHandle E processID

/-- The statement `ipc_ = boost::make_shared<uberstealth::IPCConfigExchangeWriter>(processId)`. -/
def ipcCreate (E : Env) (processId : Nat) : Exec Unit := do
  call E (.ipcCreate processId)
  let fresh : IPCConfigExchangeWriter :=
    { processId := processId, profileFile := none, peHeaderData := none,
      peRestoreRequired := none }
  modifySelf (fun self => { self with ipc_ := some fresh })

/-- The statement `ipc_->setProfileFile(path)`. -/
def setProfileFile (E : Env) (path : String) : Exec Unit := do
  call E (.setProfileFile path)
  modifySelf (fun self =>
    { self with ipc_ := self.ipc_.map (fun w => { w with profileFile := some path }) })

/-- The statement `ipc_->setIPCPEHeaderData(data)`. -/
def setIPCPEHeaderData (E : Env) (data : IPCPEHeaderData) : Exec Unit := do
  call E (.setIPCPEHeaderData data)
  modifySelf (fun self =>
    { self with ipc_ := self.ipc_.map (fun w => { w with peHeaderData := some data }) })

/-- The statement `ipc_->setPERestoreRequired(flag)`. -/
def setPERestoreRequired (E : Env) (flag : Bool) : Exec Unit := do
  call E (.setPERestoreRequired flag)
  modifySelf (fun self =>
    { self with ipc_ := self.ipc_.map (fun w => { w with peRestoreRequired := some flag }) })

/-- The statement `injectionBeacon_ = boost::make_shared<InjectionBeacon>(processId)`. -/
def beaconCreate (E : Env) (processId : Nat) : Exec Unit := do
  call E (.beaconCreate processId)
  modifySelf (fun self => { self with injectionBeacon_ := some processId })

/-- The method `dbgAttachThread(processId)`, the body of the background thread. -/
def dbgAttachThread (E : Env) (processId : Nat) : Exec Unit :=
  tryCatch
    (do
      beaconCreate E processId
      performCommonInit E processId
      ipcCreate E processId
      let self ← getSelf
      setProfileFile E self.profilePath_
      setPERestoreRequired E false
      call E (.processCtor processId)
      call E (.injectLibraryCtor E.getStealthDllPath processId)
      let injected ← injectLib E
      if !injected then
        logString "Injection of stealth dll failed (while attaching to process).\n" [])
    (fun e => e.isStdException)
    (fun e => logString "Error while trying to attach to process: %s\n" [e.what])

/-- The method `handleDebuggerAttach(processId)`, as executed by the calling
thread: the thread that runs `dbgAttachThread` is only launched. -/
def handleDebuggerAttach (processId : Nat) : Exec Unit := do
  let self ← getSelf
  if self.currentProfile_.getEnableDbgAttachEnabled then
    -- We need to start dll injection in a background thread because the dll injection
    -- will block until the debuggee is resumed.
    emit (.threadLaunch processId)

/-- The method `handleDebuggerStart(processId, baseAddress)`. -/
def handleDebuggerStart (E : Env) (processId : Nat) (baseAddress : Nat) : Exec Unit := do
  let self ← getSelf
  if self.currentProfile_.getEnableDbgStartEnabled then
    tryCatch
      (do
        beaconCreate E processId
        performCommonInit E processId
        handleRtlGetNtGlobalFlags E processId
        call E (.processCtor processId)
        call E (.iatModifierCtor processId)
        call E (.setImageBase baseAddress)
        ipcCreate E processId
        setProfileFile E self.profilePath_
        let ntHeaders ← readNTHeaders E
        setIPCPEHeaderData E { imageBase := baseAddress, ntHeaders := ntHeaders }
        setPERestoreRequired E true
        call E (.writeIAT E.getStealthDllPath))
      (fun _ => true)
      (fun e =>
        if e.isStdException then
          logString "Failed to inject stealth dll (%s): %s.\n" [E.getStealthDllPath, e.what]
        else
          logString "Unknown error while trying to inject stealth dll (%s).\n"
            [E.getStealthDllPath])

/-- The method `handleDebuggerExit()`. -/
def handleDebuggerExit (E : Env) : Exec Unit := do
  stopDrivers E
  let self ← getSelf
  emit (.CloseHandle self.hProcess_)

/-- The constructor `CommonStealthSession(profilePath)`; `profile` is the
result of `HideDebuggerProfile::readProfileFromFile(profilePath)`. -/
def Session.new (profilePath : String) (profile : HideDebuggerProfile) : Session :=
  { hProcess_ := INVALID_HANDLE_VALUE, profilePath_ := profilePath, currentProfile_ := profile,
    ipc_ := none, injectionBeacon_ := none }

/-! ## Observations on traces -/

/-- The exception with which the event ended, if it is a call that raised. -/
def Event.raisedException : Event → Option CppException
  | .call _ (.raised e) => some e
  | .readNTHeaders (.raised e) => some e
  | .injectLib (.raised e) => some e
  | _ => none

/-- Whether the event is a log line one of whose arguments is the text `what`. -/
def Event.logs (what : String) : Event → Bool
  | .logString _ args => args.contains what
  | _ => false

/-- Every call that raised is followed, later in the trace, by a log line that
carries the text of the exception. -/
def failuresLogged : List Event → Bool
  | [] => true
  | ev :: rest =>
    (match ev.raisedException with
      | none => true
      | some e => rest.any (Event.logs e.what)) && failuresLogged rest

/-- The request (load, configure or stop) that the event sends to the driver
`d`, if it is one. -/
def Event.requestTo (d : Driver) : Event → Option Call
  | .call (.startDriver d2 resource name) _ =>
    if d2 = d then some (.startDriver d2 resource name) else none
  | .call (.setMode d2 ioctlCode param size) _ =>
    if d2 = d then some (.setMode d2 ioctlCode param size) else none
  | .call (.stopDriver d2) _ => if d2 = d then some (.stopDriver d2) else none
  | _ => none

/-- The requests sent to the driver `d`, in order. -/
def requestsTo (d : Driver) (evs : List Event) : List Call :=
  evs.filterMap (Event.requestTo d)

/-- Whether the event is any call on the driver `d`, getters included. -/
def Event.onDriver (d : Driver) : Event → Bool
  | .call (.startDriver d2 _ _) _ => d2 = d
  | .call (.setMode d2 _ _ _) _ => d2 = d
  | .call (.stopDriver d2) _ => d2 = d
  | .isRunning d2 _ => d2 = d
  | .getDriverPath d2 _ => d2 = d
  | _ => false

/-- The configure request (control code, parameter buffer, buffer size) that the
event sends to the driver `d`, if it is one. -/
def Event.configureRequestTo (d : Driver) : Event → Option (Nat × ParamBuffer × Nat)
  | .call (.setMode d2 ioctlCode param size) _ =>
    if d2 = d then some (ioctlCode, param, size) else none
  | _ => none

/-- The configure requests sent to the driver `d`, in order. -/
def configureRequestsTo (d : Driver) (evs : List Event) : List (Nat × ParamBuffer × Nat) :=
  evs.filterMap (Event.configureRequestTo d)

/-- Whether the event creates or fills the configuration-exchange payload, or
is an injection call (`writeIAT`, the construction of the injector, `injectLib`). -/
def Event.isPayloadOrInjection : Event → Bool
  | .call (.ipcCreate _) _ => true
  | .call (.setProfileFile _) _ => true
  | .call (.setIPCPEHeaderData _) _ => true
  | .call (.setPERestoreRequired _) _ => true
  | .call (.writeIAT _) _ => true
  | .call (.injectLibraryCtor _ _) _ => true
  | .injectLib _ => true
  | _ => false

/-- Whether the call is a request (load, configure or stop) to the driver `d`. -/
def Call.isRequestTo (d : Driver) : Call → Bool
  | .startDriver d2 _ _ => d2 = d
  | .setMode d2 _ _ _ => d2 = d
  | .stopDriver d2 => d2 = d
  | _ => false

/-- Whether the call is a load or configure request to a driver. -/
def Call.isDriverRequest : Call → Bool
  | .startDriver _ _ _ => true
  | .setMode _ _ _ _ => true
  | _ => false

/-- Whether the call is `writeMemory`. -/
def Call.isWriteMemory : Call → Bool
  | .writeMemory _ _ _ _ => true
  | _ => false

/-- Whether the call is `stopDriver`. -/
def Call.isStopDriver : Call → Bool
  | .stopDriver _ => true
  | _ => false

/-- Whether the event is a `CloseHandle`. -/
def Event.isCloseHandle : Event → Bool
  | .CloseHandle _ => true
  | _ => false

/-- The failures of a driver request are C++ exceptions derived from
`std::exception`. -/
def DriverFailuresAreStd (E : Env) : Prop :=
  ∀ hist c e, E.raises hist c = some e → c.isDriverRequest = true → e.isStdException = true

/-- The failures of `stopDriver` are C++ exceptions derived from `std::exception`. -/
def StopFailuresAreStd (E : Env) : Prop :=
  ∀ hist d e, E.raises hist (.stopDriver d) = some e → e.isStdException = true

/-- The only failures are the recoverable ones: a `std::exception` raised by a
driver load or configure request, and a `MemoryAccessException` raised by
`writeMemory`.  Every other step succeeds. -/
def RecoverableFailuresOnly (E : Env) : Prop :=
  (∀ hist c e, E.raises hist c = some e →
      (c.isDriverRequest = true ∧ e.isStdException = true) ∨
      (c.isWriteMemory = true ∧ e.isMemoryAccessException = true)) ∧
  (∀ hist, ∃ h, E.readNTHeaders hist = .returned h) ∧
  (∀ hist pid, E.OpenProcess hist pid ≠ INVALID_HANDLE_VALUE)

/-- No step fails: no call raises, `readNTHeaders` and `injectLib` return, and
`OpenProcess` gives a handle other than `INVALID_HANDLE_VALUE`. -/
def FailureFree (E : Env) : Prop :=
  (∀ hist c, E.raises hist c = none) ∧
  (∀ hist, ∃ h, E.readNTHeaders hist = .returned h) ∧
  (∀ hist, ∃ b, E.injectLib hist = .returned b) ∧
  (∀ hist pid, E.OpenProcess hist pid ≠ INVALID_HANDLE_VALUE)

/-- The events of the import-table rewrite at the end of `handleDebuggerStart`
when every step of it succeeds: the rewriter is opened on the process and given
the base address, the configuration-exchange payload is created and filled, and
`writeIAT` is called last. -/
def iatRewriteEvents (E : Env) (self : Session) (processId baseAddress : Nat)
    (ntHeaders : IMAGE_NT_HEADERS) : List Event :=
  [ .call (.processCtor processId) (.returned ()),
    .call (.iatModifierCtor processId) (.returned ()),
    .call (.setImageBase baseAddress) (.returned ()),
    .call (.ipcCreate processId) (.returned ()),
    .call (.setProfileFile self.profilePath_) (.returned ()),
    .readNTHeaders (.returned ntHeaders),
    .call (.setIPCPEHeaderData { imageBase := baseAddress, ntHeaders := ntHeaders })
      (.returned ()),
    .call (.setPERestoreRequired true) (.returned ()),
    .call (.writeIAT E.getStealthDllPath) (.returned ()) ]

/-! ## Concrete environments, profiles and sessions -/

/-- An environment in which every step succeeds.  The three control codes are
arbitrary distinct numbers. -/
def envAllSucceed : Env :=
  { getRDTSCDriverResource := { id := 1 }
    getStealthDriverResource := { id := 2 }
    getStealthDllPath := "HideDebugger.dll"
    IOCTL_RDTSCEMU_METHOD_ALWAYS_CONST := 2236416
    IOCTL_RDTSCEMU_METHOD_INCREASING := 2236420
    IOCTL_STEALTHDRIVER_ENABLE_HOOKS := 2236424
    sizeofStealthHook := 4
    raises := fun _ _ => none
    readNTHeaders := fun _ => .returned [80, 69, 0, 0]
    injectLib := fun _ => .returned true
    isRunning := fun _ _ => true
    getDriverPath := fun _ _ => "driver.sys"
    OpenProcess := fun _ _ => 42
    LoadLibrary := fun _ _ => 7
    GetProcAddress := fun _ _ _ => 4096 }

/-- An environment in which the emulation driver refuses to load and the
memory patch is denied; every other step succeeds. -/
def envTechniquesFail : Env :=
  { envAllSucceed with
    raises := fun _ c =>
      match c with
      | .startDriver .rdtscDriver_ _ _ =>
        some { isStdException := true, isMemoryAccessException := false, what := "load rejected" }
      | .writeMemory _ _ _ _ =>
        some { isStdException := true, isMemoryAccessException := true, what := "access denied" }
      | _ => none }

/-- An environment in which `OpenProcess` gives `INVALID_HANDLE_VALUE`; no call
raises. -/
def envNoHandle : Env :=
  { envAllSucceed with OpenProcess := fun _ _ => INVALID_HANDLE_VALUE }

/-- An environment in which the hook driver rejects the request that enables
the thread-information hook; every other step succeeds. -/
def envThreadHookRejected : Env :=
  { envAllSucceed with
    raises := fun _ c =>
      match c with
      | .setMode .stealthDriver_ _ (.hook .SH_NtSetInformationThread) _ =>
        some { isStdException := true, isMemoryAccessException := false,
               what := "ioctl rejected" }
      | _ => none }

/-- An environment in which both drivers fail to stop; every other step succeeds. -/
def envStopFails : Env :=
  { envAllSucceed with
    raises := fun _ c =>
      match c with
      | .stopDriver _ =>
        some { isStdException := true, isMemoryAccessException := false,
               what := "service not stopped" }
      | _ => none }

/-- A profile with every technique enabled, the emulation driver in drift mode. -/
def profileAll : HideDebuggerProfile :=
  { getEnableDbgAttachEnabled := true
    getEnableDbgStartEnabled := true
    getRtlGetNtGlobalFlagsEnabled := true
    getRDTSCDriverLoad := true
    getRDTSCDriverUnload := true
    getRDTSCDriverCustomName := "rdtscemu"
    getRDTSCDriverMode := .increasing
    getRDTSCDriverDelta := 65535
    getStealthDriverLoad := true
    getStealthDriverUnload := true
    getStealthDriverCustomName := "stealth"
    getStealthDriverNtSetInformationThread := true
    getStealthDriverNtQueryInformationProcess := true }

/-- A profile with every technique disabled. -/
def profileNone : HideDebuggerProfile :=
  { getEnableDbgAttachEnabled := false
    getEnableDbgStartEnabled := false
    getRtlGetNtGlobalFlagsEnabled := false
    getRDTSCDriverLoad := false
    getRDTSCDriverUnload := false
    getRDTSCDriverCustomName := "rdtscemu"
    getRDTSCDriverMode := .constant
    getRDTSCDriverDelta := 0
    getStealthDriverLoad := false
    getStealthDriverUnload := false
    getStealthDriverCustomName := "stealth"
    getStealthDriverNtSetInformationThread := false
    getStealthDriverNtQueryInformationProcess := false }

/-- A profile with both injection flags off and every other flag on. -/
def profileNoInjection : HideDebuggerProfile :=
  { profileAll with getEnableDbgStartEnabled := false, getEnableDbgAttachEnabled := false }

/-- A profile that enables only injection, at start and at attach. -/
def profileInjectOnly : HideDebuggerProfile :=
  { profileNone with getEnableDbgStartEnabled := true, getEnableDbgAttachEnabled := true }

/-- A profile that enables start-time injection and only the hook driver, with
only the thread-information hook selected. -/
def profileThreadHookOnly : HideDebuggerProfile :=
  { profileNone with
    getEnableDbgStartEnabled := true
    getStealthDriverLoad := true
    getStealthDriverNtSetInformationThread := true }

/-- A profile with the emulation driver in constant mode and a non-zero delta. -/
def profileConstantMode : HideDebuggerProfile :=
  { profileAll with getRDTSCDriverMode := .constant, getRDTSCDriverDelta := 65535 }

/-- The object after a successful `handleDebuggerStart` that acquired the handle
`42` (profile `profileInjectOnly`, environment `envAllSucceed`). -/
def sessionAfterStart : Session :=
  ((handleDebuggerStart envAllSucceed 1234 4194304).run []
    (Session.new "profile.xml" profileInjectOnly)).self

/-- The events of that `handleDebuggerStart`. -/
def historyAfterStart : List Event :=
  ((handleDebuggerStart envAllSucceed 1234 4194304).run []
    (Session.new "profile.xml" profileInjectOnly)).events

/-- Run `m` and hand its outcome, final object and events to `k`. -/
def Exec.runK {α : Type} {γ : Sort _} (m : Exec α) (hist : List Event) (self : Session)
    (k : Outcome α → Session → List Event → γ) : γ :=
  k (m.run hist self).outcome (m.run hist self).self (m.run hist self).events

/-! ## Evaluation lemmas for the execution monad -/

theorem run_eq_runK {α : Type} (m : Exec α) (hist : List Event) (self : Session) :
    m.run hist self = m.runK hist self (fun o s evs => ⟨o, s, evs⟩) := rfl

theorem runK_pure {α : Type} {γ : Sort _} (a : α) (hist : List Event) (self : Session)
    (k : Outcome α → Session → List Event → γ) :
    (pure a : Exec α).runK hist self k = k (.returned a) self [] := rfl

theorem runK_bind {α β : Type} {γ : Sort _} (m : Exec α) (f : α → Exec β) (hist : List Event)
    (self : Session) (k : Outcome β → Session → List Event → γ) :
    (m >>= f).runK hist self k =
      m.runK hist self (fun o s evs =>
        match o with
        | .returned a => (f a).runK (hist ++ evs) s (fun o2 s2 evs2 => k o2 s2 (evs ++ evs2))
        | .raised e => k (.raised e) s evs) := by
  show Exec.runK (Exec.andThen m f) hist self k = _
  unfold Exec.runK Exec.run Exec.andThen
  rcases m hist self with ⟨o, s, evs⟩
  cases o <;> rfl

theorem runK_getSelf {γ : Sort _} (hist : List Event) (self : Session)
    (k : Outcome Session → Session → List Event → γ) :
    getSelf.runK hist self k = k (.returned self) self [] := rfl

theorem runK_modifySelf {γ : Sort _} (f : Session → Session) (hist : List Event)
    (self : Session) (k : Outcome Unit → Session → List Event → γ) :
    (modifySelf f).runK hist self k = k (.returned ()) (f self) [] := rfl

theorem runK_emit {γ : Sort _} (ev : Event) (hist : List Event) (self : Session)
    (k : Outcome Unit → Session → List Event → γ) :
    (emit ev).runK hist self k = k (.returned ()) self [ev] := rfl

theorem runK_logString {γ : Sort _} (f : String) (a : List String) (hist : List Event)
    (self : Session) (k : Outcome Unit → Session → List Event → γ) :
    (logString f a).runK hist self k = k (.returned ()) self [.logString f a] := rfl

theorem runK_throwCpp {α : Type} {γ : Sort _} (e : CppException) (hist : List Event)
    (self : Session) (k : Outcome α → Session → List Event → γ) :
    (throwCpp e : Exec α).runK hist self k = k (.raised e) self [] := rfl

theorem runK_call {γ : Sort _} (E : Env) (c : Call) (hist : List Event) (self : Session)
    (k : Outcome Unit → Session → List Event → γ) :
    (call E c).runK hist self k =
      match E.raises hist c with
      | none => k (.returned ()) self [.call c (.returned ())]
      | some e => k (.raised e) self [.call c (.raised e)] := by
  unfold Exec.runK Exec.run call
  cases E.raises hist c <;> rfl

theorem runK_tryCatch {γ : Sort _} (body : Exec Unit) (p : CppException → Bool)
    (h : CppException → Exec Unit) (hist : List Event) (self : Session)
    (k : Outcome Unit → Session → List Event → γ) :
    (tryCatch body p h).runK hist self k =
      body.runK hist self (fun o s evs =>
        match o with
        | .returned a => k (.returned a) s evs
        | .raised e =>
          if p e then (h e).runK (hist ++ evs) s (fun o2 s2 evs2 => k o2 s2 (evs ++ evs2))
          else k (.raised e) s evs) := by
  unfold Exec.runK Exec.run tryCatch
  rcases body hist self with ⟨o, s, evs⟩
  cases o
  · rfl
  · simp only []
    split <;> rfl

theorem runK_ite {α : Type} {γ : Sort _} (c : Prop) [Decidable c] (a b : Exec α)
    (hist : List Event) (self : Session) (k : Outcome α → Session → List Event → γ) :
    (if c then a else b).runK hist self k =
      if c then a.runK hist self k else b.runK hist self k := by
  split <;> rfl

theorem runK_isRunning {γ : Sort _} (E : Env) (d : Driver) (hist : List Event)
    (self : Session) (k : Outcome Bool → Session → List Event → γ) :
    (isRunning E d).runK hist self k =
      k (.returned (E.isRunning hist d)) self [.isRunning d (E.isRunning hist d)] := rfl

theorem runK_getDriverPath {γ : Sort _} (E : Env) (d : Driver) (hist : List Event)
    (self : Session) (k : Outcome String → Session → List Event → γ) :
    (getDriverPath E d).runK hist self k =
      k (.returned (E.getDriverPath hist d)) self [.getDriverPath d (E.getDriverPath hist d)] :=
  rfl

theorem runK_OpenProcess {γ : Sort _} (E : Env) (pid : Nat) (hist : List Event)
    (self : Session) (k : Outcome HANDLE → Session → List Event → γ) :
    (OpenProcess E pid).runK hist self k =
      k (.returned (E.OpenProcess hist pid)) self [.OpenProcess pid (E.OpenProcess hist pid)] :=
  rfl

theorem runK_LoadLibrary {γ : Sort _} (E : Env) (n : String) (hist : List Event)
    (self : Session) (k : Outcome Nat → Session → List Event → γ) :
    (LoadLibrary E n).runK hist self k =
      k (.returned (E.LoadLibrary hist n)) self [.LoadLibrary n (E.LoadLibrary hist n)] := rfl

theorem runK_GetProcAddress {γ : Sort _} (E : Env) (m : Nat) (n : String) (hist : List Event)
    (self : Session) (k : Outcome Nat → Session → List Event → γ) :
    (GetProcAddress E m n).runK hist self k =
      k (.returned (E.GetProcAddress hist m n)) self
        [.GetProcAddress m n (E.GetProcAddress hist m n)] := rfl

theorem runK_readNTHeaders {γ : Sort _} (E : Env) (hist : List Event) (self : Session)
    (k : Outcome IMAGE_NT_HEADERS → Session → List Event → γ) :
    (readNTHeaders E).runK hist self k =
      k (E.readNTHeaders hist) self [.readNTHeaders (E.readNTHeaders hist)] := rfl

theorem runK_injectLib {γ : Sort _} (E : Env) (hist : List Event) (self : Session)
    (k : Outcome Bool → Session → List Event → γ) :
    (injectLib E).runK hist self k =
      k (E.injectLib hist) self [.injectLib (E.injectLib hist)] := rfl

/-- Case analysis on whether a call raises. -/
theorem runK_call_cases (E : Env) (c : Call) (hist : List Event) (self : Session)
    (k : Outcome Unit → Session → List Event → Prop)
    (hret : E.raises hist c = none → k (.returned ()) self [.call c (.returned ())])
    (hraise : ∀ e, E.raises hist c = some e → k (.raised e) self [.call c (.raised e)]) :
    (call E c).runK hist self k := by
  rw [runK_call]
  cases h : E.raises hist c with
  | none => exact hret h
  | some e => exact hraise e h

/-- A call that does not raise. -/
theorem runK_call_of_none {γ : Sort _} (E : Env) (c : Call) (hist : List Event)
    (self : Session) (k : Outcome Unit → Session → List Event → γ)
    (h : E.raises hist c = none) :
    (call E c).runK hist self k = k (.returned ()) self [.call c (.returned ())] := by
  rw [runK_call, h]

/-- A computation known to return with a known object is run by handing over
its events. -/
theorem runK_of_returns {α : Type} {γ : Sort _} (m : Exec α) (hist : List Event)
    (self : Session) (a : α) (s : Session) (k : Outcome α → Session → List Event → γ)
    (h1 : (m.run hist self).outcome = .returned a) (h2 : (m.run hist self).self = s) :
    m.runK hist self k = k (.returned a) s (m.run hist self).events := by
  unfold Exec.runK
  rw [h1, h2]

/-! ## Stepping rules for properties of a run -/

theorem step_bind {α β : Type} (m : Exec α) (f : α → Exec β) (hist : List Event)
    (self : Session) (k : Outcome β → Session → List Event → Prop)
    (h : m.runK hist self (fun o s evs =>
        match o with
        | .returned a => (f a).runK (hist ++ evs) s (fun o2 s2 evs2 => k o2 s2 (evs ++ evs2))
        | .raised e => k (.raised e) s evs)) :
    (m >>= f).runK hist self k := by
  rw [runK_bind]; exact h

theorem step_tryCatch (body : Exec Unit) (p : CppException → Bool)
    (h : CppException → Exec Unit) (hist : List Event) (self : Session)
    (k : Outcome Unit → Session → List Event → Prop)
    (hb : body.runK hist self (fun o s evs =>
        match o with
        | .returned a => k (.returned a) s evs
        | .raised e =>
          if p e then (h e).runK (hist ++ evs) s (fun o2 s2 evs2 => k o2 s2 (evs ++ evs2))
          else k (.raised e) s evs)) :
    (tryCatch body p h).runK hist self k := by
  rw [runK_tryCatch]; exact hb

theorem step_ite {α : Type} (c : Prop) [Decidable c] (a b : Exec α) (hist : List Event)
    (self : Session) (k : Outcome α → Session → List Event → Prop)
    (ht : c → a.runK hist self k) (hf : ¬c → b.runK hist self k) :
    (if c then a else b).runK hist self k := by
  split
  · exact ht ‹_›
  · exact hf ‹_›

theorem step_propIte (c : Prop) [Decidable c] (P Q : Prop) (ht : c → P) (hf : ¬c → Q) :
    if c then P else Q := by
  split
  · exact ht ‹_›
  · exact hf ‹_›

theorem step_pure {α : Type} (a : α) (hist : List Event) (self : Session)
    (k : Outcome α → Session → List Event → Prop) (h : k (.returned a) self []) :
    (pure a : Exec α).runK hist self k := h

theorem step_getSelf (hist : List Event) (self : Session)
    (k : Outcome Session → Session → List Event → Prop) (h : k (.returned self) self []) :
    getSelf.runK hist self k := h

theorem step_modifySelf (f : Session → Session) (hist : List Event) (self : Session)
    (k : Outcome Unit → Session → List Event → Prop) (h : k (.returned ()) (f self) []) :
    (modifySelf f).runK hist self k := h

theorem step_emit (ev : Event) (hist : List Event) (self : Session)
    (k : Outcome Unit → Session → List Event → Prop) (h : k (.returned ()) self [ev]) :
    (emit ev).runK hist self k := h

theorem step_logString (f : String) (a : List String) (hist : List Event) (self : Session)
    (k : Outcome Unit → Session → List Event → Prop)
    (h : k (.returned ()) self [.logString f a]) :
    (logString f a).runK hist self k := h

theorem step_throwCpp {α : Type} (e : CppException) (hist : List Event) (self : Session)
    (k : Outcome α → Session → List Event → Prop) (h : k (.raised e) self []) :
    (throwCpp e : Exec α).runK hist self k := h

theorem step_getDriverPath (E : Env) (d : Driver) (hist : List Event) (self : Session)
    (k : Outcome String → Session → List Event → Prop)
    (h : ∀ p, k (.returned p) self [.getDriverPath d p]) :
    (getDriverPath E d).runK hist self k := h _

theorem step_isRunning (E : Env) (d : Driver) (hist : List Event) (self : Session)
    (k : Outcome Bool → Session → List Event → Prop)
    (h : ∀ b, k (.returned b) self [.isRunning d b]) :
    (isRunning E d).runK hist self k := h _

theorem step_LoadLibrary (E : Env) (n : String) (hist : List Event) (self : Session)
    (k : Outcome Nat → Session → List Event → Prop)
    (h : ∀ m, k (.returned m) self [.LoadLibrary n m]) :
    (LoadLibrary E n).runK hist self k := h _

theorem step_GetProcAddress (E : Env) (m : Nat) (n : String) (hist : List Event)
    (self : Session) (k : Outcome Nat → Session → List Event → Prop)
    (h : ∀ a, k (.returned a) self [.GetProcAddress m n a]) :
    (GetProcAddress E m n).runK hist self k := h _

/-! ## Failures and their log lines -/

theorem failuresLogged_append (a b : List Event) (ha : failuresLogged a = true)
    (hb : failuresLogged b = true) : failuresLogged (a ++ b) = true := by
  induction a with
  | nil => simpa using hb
  | cons ev rest ih =>
    simp only [failuresLogged, Bool.and_eq_true] at ha
    simp only [List.cons_append, failuresLogged, Bool.and_eq_true]
    refine ⟨?_, ih ha.2⟩
    cases h : ev.raisedException with
    | none => rfl
    | some e =>
      have h1 := ha.1
      simp only [h] at h1
      simp only [List.append_eq, List.any_append, Bool.or_eq_true]
      exact Or.inl h1

theorem failuresLogged_cons_of_none (ev : Event) (rest : List Event)
    (h : ev.raisedException = none) (hr : failuresLogged rest = true) :
    failuresLogged (ev :: rest) = true := by
  simp [failuresLogged, h, hr]

theorem RecoverableFailuresOnly.driverStd {E : Env} (H : RecoverableFailuresOnly E) :
    DriverFailuresAreStd E := by
  intro hist c e he hc
  rcases H.1 hist c e he with h | h
  · exact h.2
  · cases c <;> simp [Call.isDriverRequest, Call.isWriteMemory] at hc h

theorem FailureFree.recoverable {E : Env} (H : FailureFree E) : RecoverableFailuresOnly E := by
  refine ⟨?_, H.2.1, H.2.2.2⟩
  intro hist c e he
  rw [H.1 hist c] at he
  cases he

/-! ## Case analysis on calls under assumptions on the environment -/

theorem runK_call_cases_driver (E : Env) (H : DriverFailuresAreStd E) (c : Call)
    (hist : List Event) (self : Session) (k : Outcome Unit → Session → List Event → Prop)
    (hc : c.isDriverRequest = true)
    (hret : E.raises hist c = none → k (.returned ()) self [.call c (.returned ())])
    (hraise : ∀ e, E.raises hist c = some e → e.isStdException = true →
      k (.raised e) self [.call c (.raised e)]) :
    (call E c).runK hist self k :=
  runK_call_cases E c hist self k hret (fun e he => hraise e he (H hist c e he hc))

theorem step_call_of_none (E : Env) (c : Call) (hist : List Event) (self : Session)
    (k : Outcome Unit → Session → List Event → Prop) (hnone : E.raises hist c = none)
    (h : k (.returned ()) self [.call c (.returned ())]) :
    (call E c).runK hist self k := by
  rw [runK_call_of_none E c hist self k hnone]
  exact h

theorem step_call_of_raises (E : Env) (H : DriverFailuresAreStd E) (c : Call)
    (hist : List Event) (self : Session)
    (k : Outcome Unit → Session → List Event → Prop) (hc : c.isDriverRequest = true)
    (hsome : ∃ e, E.raises hist c = some e)
    (h : ∀ e, e.isStdException = true → k (.raised e) self [.call c (.raised e)]) :
    (call E c).runK hist self k := by
  obtain ⟨e, he⟩ := hsome
  rw [runK_call, he]
  exact h e (H hist c e he hc)

theorem runK_call_cases_writeMemory (E : Env) (H : RecoverableFailuresOnly E) (c : Call)
    (hist : List Event) (self : Session) (k : Outcome Unit → Session → List Event → Prop)
    (hc : c.isWriteMemory = true)
    (hret : E.raises hist c = none → k (.returned ()) self [.call c (.returned ())])
    (hraise : ∀ e, e.isMemoryAccessException = true →
      k (.raised e) self [.call c (.raised e)]) :
    (call E c).runK hist self k := by
  refine runK_call_cases E c hist self k hret (fun e he => hraise e ?_)
  rcases H.1 hist c e he with h | h
  · cases c <;> simp [Call.isDriverRequest, Call.isWriteMemory] at hc h
  · exact h.2

theorem raises_none_of_recoverable (E : Env) (H : RecoverableFailuresOnly E) (c : Call)
    (hist : List Event) (hc1 : c.isDriverRequest = false) (hc2 : c.isWriteMemory = false) :
    E.raises hist c = none := by
  cases h : E.raises hist c with
  | none => rfl
  | some e =>
    rcases H.1 hist c e h with h' | h'
    · rw [hc1] at h'; cases h'.1
    · rw [hc2] at h'; cases h'.1

theorem step_call_returns (E : Env) (H : RecoverableFailuresOnly E) (c : Call)
    (hist : List Event) (self : Session) (k : Outcome Unit → Session → List Event → Prop)
    (hc1 : c.isDriverRequest = false) (hc2 : c.isWriteMemory = false)
    (h : k (.returned ()) self [.call c (.returned ())]) :
    (call E c).runK hist self k := by
  rw [runK_call_of_none E c hist self k (raises_none_of_recoverable E H c hist hc1 hc2)]
  exact h

/-! ## The driver start-up and the memory patch, as units -/

theorem startDrivers_returns (E : Env) (H : DriverFailuresAreStd E) (hist : List Event)
    (self : Session) :
    ((startDrivers E).run hist self).outcome = .returned () ∧
      ((startDrivers E).run hist self).self = self ∧
      failuresLogged ((startDrivers E).run hist self).events = true := by
  show (startDrivers E).runK hist self
    (fun o s evs => o = .returned () ∧ s = self ∧ failuresLogged evs = true)
  unfold startDrivers
  repeat' first
    | apply step_bind
    | apply step_tryCatch
    | apply step_pure
    | apply step_getSelf
    | apply step_logString
    | apply step_getDriverPath
    | refine runK_call_cases_driver E H _ _ _ _ (by rfl) ?_ ?_
    | apply step_ite
    | intro _
    | rw [if_pos (by assumption)]
    | dsimp only
  all_goals refine ⟨rfl, rfl, ?_⟩
  all_goals first
    | rfl
    | simp [failuresLogged, Event.raisedException, Event.logs]

theorem handleRtlGetNtGlobalFlags_returns (E : Env) (H : RecoverableFailuresOnly E)
    (processID : Nat) (hist : List Event) (self : Session) :
    ((handleRtlGetNtGlobalFlags E processID).run hist self).outcome = .returned () ∧
      ((handleRtlGetNtGlobalFlags E processID).run hist self).self = self ∧
      failuresLogged ((handleRtlGetNtGlobalFlags E processID).run hist self).events = true := by
  show (handleRtlGetNtGlobalFlags E processID).runK hist self
    (fun o s evs => o = .returned () ∧ s = self ∧ failuresLogged evs = true)
  unfold handleRtlGetNtGlobalFlags
  repeat' first
    | apply step_bind
    | apply step_tryCatch
    | apply step_pure
    | apply step_getSelf
    | apply step_logString
    | apply step_emit
    | apply step_LoadLibrary
    | apply step_GetProcAddress
    | refine step_call_returns E H _ _ _ _ (by rfl) (by rfl) ?_
    | refine runK_call_cases_writeMemory E H _ _ _ _ (by rfl) ?_ ?_
    | apply step_ite
    | intro _
    | rw [if_pos (by assumption)]
    | dsimp only
  all_goals refine ⟨rfl, rfl, ?_⟩
  all_goals first
    | rfl
    | simp [failuresLogged, Event.raisedException, Event.logs]

theorem step_startDrivers (E : Env) (H : DriverFailuresAreStd E) (hist : List Event)
    (self : Session) (k : Outcome Unit → Session → List Event → Prop)
    (h : ∀ evs, evs = ((startDrivers E).run hist self).events → failuresLogged evs = true →
      k (.returned ()) self evs) :
    (startDrivers E).runK hist self k := by
  obtain ⟨h1, h2, h3⟩ := startDrivers_returns E H hist self
  rw [runK_of_returns _ _ _ _ _ _ h1 h2]
  exact h _ rfl h3

theorem step_handleRtlGetNtGlobalFlags (E : Env) (H : RecoverableFailuresOnly E)
    (processID : Nat) (hist : List Event) (self : Session)
    (k : Outcome Unit → Session → List Event → Prop)
    (h : ∀ evs, evs = ((handleRtlGetNtGlobalFlags E processID).run hist self).events →
      failuresLogged evs = true → k (.returned ()) self evs) :
    (handleRtlGetNtGlobalFlags E processID).runK hist self k := by
  obtain ⟨h1, h2, h3⟩ := handleRtlGetNtGlobalFlags_returns E H processID hist self
  rw [runK_of_returns _ _ _ _ _ _ h1 h2]
  exact h _ rfl h3

theorem step_OpenProcess_valid (E : Env) (H : RecoverableFailuresOnly E) (pid : Nat)
    (hist : List Event) (self : Session) (k : Outcome HANDLE → Session → List Event → Prop)
    (h : ∀ hd, hd ≠ INVALID_HANDLE_VALUE → k (.returned hd) self [.OpenProcess pid hd]) :
    (OpenProcess E pid).runK hist self k := h _ (H.2.2 hist pid)

theorem step_readNTHeaders_returns (E : Env) (H : RecoverableFailuresOnly E)
    (hist : List Event) (self : Session)
    (k : Outcome IMAGE_NT_HEADERS → Session → List Event → Prop)
    (h : ∀ hdr, k (.returned hdr) self [.readNTHeaders (.returned hdr)]) :
    (readNTHeaders E).runK hist self k := by
  obtain ⟨hdr, hh⟩ := H.2.1 hist
  rw [runK_readNTHeaders, hh]
  exact h hdr

theorem step_call_failureFree (E : Env) (H : FailureFree E) (c : Call)
    (hist : List Event) (self : Session) (k : Outcome Unit → Session → List Event → Prop)
    (h : k (.returned ()) self [.call c (.returned ())]) :
    (call E c).runK hist self k := by
  rw [runK_call_of_none E c hist self k (H.1 hist c)]
  exact h

theorem step_injectLib_returns (E : Env) (H : FailureFree E)
    (hist : List Event) (self : Session)
    (k : Outcome Bool → Session → List Event → Prop)
    (h : ∀ b, k (.returned b) self [.injectLib (.returned b)]) :
    (injectLib E).runK hist self k := by
  obtain ⟨b, hb⟩ := H.2.2.1 hist
  rw [runK_injectLib, hb]
  exact h b

theorem runK_call_cases_stop (E : Env) (H : StopFailuresAreStd E) (d : Driver)
    (hist : List Event) (self : Session) (k : Outcome Unit → Session → List Event → Prop)
    (hret : k (.returned ()) self [.call (.stopDriver d) (.returned ())])
    (hraise : ∀ e, e.isStdException = true →
      k (.raised e) self [.call (.stopDriver d) (.raised e)]) :
    (call E (.stopDriver d)).runK hist self k :=
  runK_call_cases E _ hist self k (fun _ => hret) (fun e he => hraise e (H hist d e he))

/-- What the events of `startDrivers` never are, in every environment. -/
theorem startDrivers_events_frame (E : Env) (hist : List Event) (self : Session) :
    ((startDrivers E).run hist self).events.all (fun ev => !ev.isPayloadOrInjection) = true ∧
      (self.currentProfile_.getRDTSCDriverLoad = false →
        ((startDrivers E).run hist self).events.filter (Event.onDriver .rdtscDriver_) = []) := by
  show (startDrivers E).runK hist self
    (fun _ _ evs => evs.all (fun ev => !ev.isPayloadOrInjection) = true ∧
      (self.currentProfile_.getRDTSCDriverLoad = false →
        evs.filter (Event.onDriver .rdtscDriver_) = []))
  unfold startDrivers
  repeat' first
    | apply step_bind
    | apply step_tryCatch
    | apply step_pure
    | apply step_getSelf
    | apply step_logString
    | apply step_getDriverPath
    | apply runK_call_cases
    | apply step_ite
    | apply step_propIte
    | intro _
    | dsimp only
  all_goals refine ⟨by rfl, fun hf => ?_⟩
  all_goals first
    | rfl
    | simp only [hf, Bool.false_eq_true] at *

/-- What the events of `handleRtlGetNtGlobalFlags` never are, in every environment. -/
theorem handleRtlGetNtGlobalFlags_events_frame (E : Env) (processID : Nat)
    (hist : List Event) (self : Session) :
    ((handleRtlGetNtGlobalFlags E processID).run hist self).events.all
        (fun ev => !ev.isPayloadOrInjection) = true ∧
      (∀ d, requestsTo d ((handleRtlGetNtGlobalFlags E processID).run hist self).events = []) ∧
      (∀ d, ((handleRtlGetNtGlobalFlags E processID).run hist self).events.filter
        (Event.onDriver d) = []) := by
  show (handleRtlGetNtGlobalFlags E processID).runK hist self
    (fun _ _ evs => evs.all (fun ev => !ev.isPayloadOrInjection) = true ∧
      (∀ d, requestsTo d evs = []) ∧ (∀ d, evs.filter (Event.onDriver d) = []))
  unfold handleRtlGetNtGlobalFlags
  repeat' first
    | apply step_bind
    | apply step_tryCatch
    | apply step_pure
    | apply step_getSelf
    | apply step_logString
    | apply step_emit
    | apply step_LoadLibrary
    | apply step_GetProcAddress
    | apply runK_call_cases
    | apply step_ite
    | apply step_propIte
    | intro _
    | dsimp only
  all_goals exact ⟨by rfl, fun _ => by rfl, fun _ => by rfl⟩

/-- The requests that `startDrivers` sends to the hook driver when nothing fails. -/
theorem startDrivers_failureFree (E : Env) (H : FailureFree E) (hist : List Event)
    (self : Session) :
    requestsTo .stealthDriver_ ((startDrivers E).run hist self).events =
      (if self.currentProfile_.getStealthDriverLoad = true then
        [Call.startDriver .stealthDriver_ E.getStealthDriverResource
            self.currentProfile_.getStealthDriverCustomName] ++
          (if self.currentProfile_.getStealthDriverNtSetInformationThread = true then
            [Call.setMode .stealthDriver_ E.IOCTL_STEALTHDRIVER_ENABLE_HOOKS
              (.hook .SH_NtSetInformationThread) E.sizeofStealthHook] else []) ++
          (if self.currentProfile_.getStealthDriverNtQueryInformationProcess = true then
            [Call.setMode .stealthDriver_ E.IOCTL_STEALTHDRIVER_ENABLE_HOOKS
              (.hook .SH_NtQueryInformationProcess) E.sizeofStealthHook] else [])
      else []) := by
  show (startDrivers E).runK hist self
    (fun _ _ evs => requestsTo .stealthDriver_ evs =
      (if self.currentProfile_.getStealthDriverLoad = true then
        [Call.startDriver .stealthDriver_ E.getStealthDriverResource
            self.currentProfile_.getStealthDriverCustomName] ++
          (if self.currentProfile_.getStealthDriverNtSetInformationThread = true then
            [Call.setMode .stealthDriver_ E.IOCTL_STEALTHDRIVER_ENABLE_HOOKS
              (.hook .SH_NtSetInformationThread) E.sizeofStealthHook] else []) ++
          (if self.currentProfile_.getStealthDriverNtQueryInformationProcess = true then
            [Call.setMode .stealthDriver_ E.IOCTL_STEALTHDRIVER_ENABLE_HOOKS
              (.hook .SH_NtQueryInformationProcess) E.sizeofStealthHook] else [])
      else []))
  unfold startDrivers
  repeat' first
    | apply step_bind
    | apply step_tryCatch
    | apply step_pure
    | apply step_getSelf
    | apply step_logString
    | apply step_getDriverPath
    | apply step_call_failureFree E H
    | apply step_ite
    | intro _
    | dsimp only
  all_goals simp only [*, if_true, if_false]
  all_goals rfl

/-- The run of `handleDebuggerStart` when start-time injection is enabled and
only recoverable failures occur. -/
theorem handleDebuggerStart_run (E : Env) (hist : List Event) (self : Session)
    (processId baseAddress : Nat)
    (hStart : self.currentProfile_.getEnableDbgStartEnabled = true)
    (H : RecoverableFailuresOnly E) :
    ∃ drivers hProcess patch ntHeaders,
      (handleDebuggerStart E processId baseAddress).run hist self =
        { outcome := .returned ()
          self := { self with
            hProcess_ := hProcess
            injectionBeacon_ := some processId
            ipc_ := some
              { processId := processId
                profileFile := some self.profilePath_
                peHeaderData := some { imageBase := baseAddress, ntHeaders := ntHeaders }
                peRestoreRequired := some true } }
          events := [.call (.beaconCreate processId) (.returned ())] ++ drivers ++
            [.OpenProcess processId hProcess] ++ patch ++
            iatRewriteEvents E self processId baseAddress ntHeaders } ∧
      hProcess ≠ INVALID_HANDLE_VALUE ∧
      drivers = ((startDrivers E).run (hist ++ [.call (.beaconCreate processId) (.returned ())])
        { self with injectionBeacon_ := some processId }).events ∧
      (∃ h s, patch = ((handleRtlGetNtGlobalFlags E processId).run h s).events) ∧
      failuresLogged drivers = true ∧ failuresLogged patch = true := by
  show (handleDebuggerStart E processId baseAddress).runK hist self
    (fun o s evs => ∃ drivers hProcess patch ntHeaders,
      (⟨o, s, evs⟩ : Result Unit) =
        { outcome := .returned ()
          self := { self with
            hProcess_ := hProcess
            injectionBeacon_ := some processId
            ipc_ := some
              { processId := processId
                profileFile := some self.profilePath_
                peHeaderData := some { imageBase := baseAddress, ntHeaders := ntHeaders }
                peRestoreRequired := some true } }
          events := [.call (.beaconCreate processId) (.returned ())] ++ drivers ++
            [.OpenProcess processId hProcess] ++ patch ++
            iatRewriteEvents E self processId baseAddress ntHeaders } ∧
      hProcess ≠ INVALID_HANDLE_VALUE ∧
      drivers = ((startDrivers E).run (hist ++ [.call (.beaconCreate processId) (.returned ())])
        { self with injectionBeacon_ := some processId }).events ∧
      (∃ h s, patch = ((handleRtlGetNtGlobalFlags E processId).run h s).events) ∧
      failuresLogged drivers = true ∧ failuresLogged patch = true)
  unfold handleDebuggerStart performCommonInit acquireProcessHandle beaconCreate ipcCreate
    setProfileFile setIPCPEHeaderData setPERestoreRequired
  repeat' first
    | apply step_startDrivers E H.driverStd
    | apply step_handleRtlGetNtGlobalFlags E H
    | apply step_OpenProcess_valid E H
    | apply step_bind
    | apply step_tryCatch
    | apply step_pure
    | apply step_getSelf
    | apply step_modifySelf
    | apply step_logString
    | apply step_readNTHeaders_returns E H
    | refine step_call_returns E H _ _ _ _ (by rfl) (by rfl) ?_
    | intro _
    | rw [if_neg (by assumption)]
    | simp only [hStart, if_true]
    | dsimp only
  rename_i drivers hdrivers hlog1 hProcess hvalid patch hpatch hlog2 ntHeaders
  simp only [List.append_nil, List.nil_append, List.append_assoc] at hdrivers
  refine ⟨drivers, hProcess, patch, ntHeaders, ?_, hvalid, hdrivers, ⟨_, _, hpatch⟩,
    hlog1, hlog2⟩
  simp [iatRewriteEvents]

/-- The run of `dbgAttachThread` when no step fails. -/
theorem dbgAttachThread_run (E : Env) (hist : List Event) (self : Session)
    (processId : Nat) (H : FailureFree E) :
    ∃ drivers hProcess injected,
      (dbgAttachThread E processId).run hist self =
        { outcome := .returned ()
          self := { self with
            hProcess_ := hProcess
            injectionBeacon_ := some processId
            ipc_ := some
              { processId := processId
                profileFile := some self.profilePath_
                peHeaderData := none
                peRestoreRequired := some false } }
          events := [.call (.beaconCreate processId) (.returned ())] ++ drivers ++
            [.OpenProcess processId hProcess] ++
            [ .call (.ipcCreate processId) (.returned ()),
              .call (.setProfileFile self.profilePath_) (.returned ()),
              .call (.setPERestoreRequired false) (.returned ()),
              .call (.processCtor processId) (.returned ()),
              .call (.injectLibraryCtor E.getStealthDllPath processId) (.returned ()),
              .injectLib (.returned injected) ] ++
            (if injected = true then []
             else [.logString "Injection of stealth dll failed (while attaching to process).\n"
                    []]) } ∧
      hProcess ≠ INVALID_HANDLE_VALUE ∧
      drivers = ((startDrivers E).run (hist ++ [.call (.beaconCreate processId) (.returned ())])
        { self with injectionBeacon_ := some processId }).events := by
  show (dbgAttachThread E processId).runK hist self
    (fun o s evs => ∃ drivers hProcess injected,
      (⟨o, s, evs⟩ : Result Unit) =
        { outcome := .returned ()
          self := { self with
            hProcess_ := hProcess
            injectionBeacon_ := some processId
            ipc_ := some
              { processId := processId
                profileFile := some self.profilePath_
                peHeaderData := none
                peRestoreRequired := some false } }
          events := [.call (.beaconCreate processId) (.returned ())] ++ drivers ++
            [.OpenProcess processId hProcess] ++
            [ .call (.ipcCreate processId) (.returned ()),
              .call (.setProfileFile self.profilePath_) (.returned ()),
              .call (.setPERestoreRequired false) (.returned ()),
              .call (.processCtor processId) (.returned ()),
              .call (.injectLibraryCtor E.getStealthDllPath processId) (.returned ()),
              .injectLib (.returned injected) ] ++
            (if injected = true then []
             else [.logString "Injection of stealth dll failed (while attaching to process).\n"
                    []]) } ∧
      hProcess ≠ INVALID_HANDLE_VALUE ∧
      drivers = ((startDrivers E).run (hist ++ [.call (.beaconCreate processId) (.returned ())])
        { self with injectionBeacon_ := some processId }).events)
  unfold dbgAttachThread performCommonInit acquireProcessHandle beaconCreate ipcCreate
    setProfileFile setPERestoreRequired
  repeat' first
    | apply step_startDrivers E H.recoverable.driverStd
    | apply step_OpenProcess_valid E H.recoverable
    | apply step_bind
    | apply step_tryCatch
    | apply step_pure
    | apply step_getSelf
    | apply step_modifySelf
    | apply step_logString
    | apply step_injectLib_returns E H
    | apply step_call_failureFree E H
    | intro _
    | rw [if_neg (by assumption)]
    | apply step_ite
    | dsimp only
  all_goals rename_i drivers hdrivers hlog1 hProcess hvalid injected hinj
  all_goals simp only [List.append_nil, List.nil_append, List.append_assoc] at hdrivers
  all_goals refine ⟨drivers, hProcess, injected, ?_, hvalid, hdrivers⟩
  all_goals cases injected <;> simp at hinj ⊢

/-- The run of `stopDrivers` when `stopDriver` fails only with `std::exception`s. -/
theorem stopDrivers_run (E : Env) (H : StopFailuresAreStd E) (hist : List Event)
    (self : Session) :
    ((stopDrivers E).run hist self).outcome = .returned () ∧
    ((stopDrivers E).run hist self).self = self ∧
    ((stopDrivers E).run hist self).events.all (fun ev => !ev.isCloseHandle) = true ∧
    requestsTo .rdtscDriver_ ((stopDrivers E).run hist self).events =
      (if self.currentProfile_.getRDTSCDriverUnload = true then
        [Call.stopDriver .rdtscDriver_] else []) ∧
    requestsTo .stealthDriver_ ((stopDrivers E).run hist self).events =
      (if self.currentProfile_.getStealthDriverUnload = true then
        [Call.stopDriver .stealthDriver_] else []) ∧
    failuresLogged ((stopDrivers E).run hist self).events = true := by
  show (stopDrivers E).runK hist self (fun o s evs =>
    o = .returned () ∧ s = self ∧ evs.all (fun ev => !ev.isCloseHandle) = true ∧
    requestsTo .rdtscDriver_ evs =
      (if self.currentProfile_.getRDTSCDriverUnload = true then
        [Call.stopDriver .rdtscDriver_] else []) ∧
    requestsTo .stealthDriver_ evs =
      (if self.currentProfile_.getStealthDriverUnload = true then
        [Call.stopDriver .stealthDriver_] else []) ∧
    failuresLogged evs = true)
  unfold stopDrivers
  repeat' first
    | apply step_bind
    | apply step_tryCatch
    | apply step_pure
    | apply step_getSelf
    | apply step_logString
    | apply step_isRunning
    | apply runK_call_cases_stop E H
    | apply step_ite
    | intro _
    | rw [if_pos (by assumption)]
    | dsimp only
  all_goals refine ⟨rfl, rfl, by rfl, ?_, ?_, ?_⟩
  all_goals first
    | rfl
    | (simp only [*, if_true, if_false]; rfl)
    | simp [failuresLogged, Event.raisedException, Event.logs]

/-- The run of `handleDebuggerExit` when `stopDriver` fails only with
`std::exception`s. -/
theorem handleDebuggerExit_run (E : Env) (H : StopFailuresAreStd E) (hist : List Event)
    (self : Session) :
    (handleDebuggerExit E).run hist self =
      { outcome := .returned (), self := self,
        events := ((stopDrivers E).run hist self).events ++ [.CloseHandle self.hProcess_] } := by
  obtain ⟨h1, h2, -⟩ := stopDrivers_run E H hist self
  rw [run_eq_runK]
  unfold handleDebuggerExit
  rw [runK_bind, runK_of_returns _ _ _ _ _ _ h1 h2]
  simp only [runK_bind, runK_getSelf, runK_emit, List.nil_append]

/-! ## The claims -/

theorem envTechniquesFail_recoverable : RecoverableFailuresOnly envTechniquesFail := by
  refine ⟨?_, fun _ => ⟨_, rfl⟩, fun hist pid => ?_⟩
  · intro hist c e h
    cases c with
    | startDriver d r n =>
      cases d <;> simp [envTechniquesFail, envAllSucceed] at h
      subst h
      simp [Call.isDriverRequest]
    | writeMemory p a b n =>
      simp [envTechniquesFail, envAllSucceed] at h
      subst h
      simp [Call.isWriteMemory]
    | _ => simp [envTechniquesFail, envAllSucceed] at h
  · show (42 : Int) ≠ -1
    decide

theorem envAllSucceed_failureFree : FailureFree envAllSucceed :=
  ⟨fun _ _ => rfl, fun _ => ⟨_, rfl⟩, fun _ => ⟨_, rfl⟩, fun _ _ => by
    show (42 : Int) ≠ -1
    decide⟩

/-- C1: with start-time injection enabled, when the only failures are
`std::exception`s raised by driver load or configure requests and
`MemoryAccessException`s raised by the `writeMemory` patch, `handleDebuggerStart`
returns normally, every call that raised is followed by a log line carrying its
text, and after the driver start-up the handle is acquired, and after the
memory patch the import-table rewriter is opened with the base address, the
payload is written and `writeIAT` is called with the stealth-library path. -/
theorem handleDebuggerStart_recoverable_failures_do_not_abort (E : Env) (hist : List Event)
    (self : Session) (processId baseAddress : Nat)
    (hStart : self.currentProfile_.getEnableDbgStartEnabled = true)
    (H : RecoverableFailuresOnly E) :
    ((handleDebuggerStart E processId baseAddress).run hist self).outcome = .returned () ∧
    failuresLogged ((handleDebuggerStart E processId baseAddress).run hist self).events = true ∧
    ∃ drivers hProcess patch ntHeaders,
      ((handleDebuggerStart E processId baseAddress).run hist self).events =
        [.call (.beaconCreate processId) (.returned ())] ++ drivers ++
          [.OpenProcess processId hProcess] ++ patch ++
          iatRewriteEvents E self processId baseAddress ntHeaders ∧
      hProcess ≠ INVALID_HANDLE_VALUE ∧
      (∃ h s, drivers = ((startDrivers E).run h s).events) ∧
      (∃ h s, patch = ((handleRtlGetNtGlobalFlags E processId).run h s).events) := by
  obtain ⟨drivers, hProcess, patch, ntHeaders, hrun, hvalid, hdrivers, hpatch, hlog1, hlog2⟩ :=
    handleDebuggerStart_run E hist self processId baseAddress hStart H
  rw [hrun]
  refine ⟨rfl, ?_, drivers, hProcess, patch, ntHeaders, rfl, hvalid, ⟨_, _, hdrivers⟩, hpatch⟩
  simp only [List.append_assoc, List.singleton_append]
  refine failuresLogged_cons_of_none _ _ (by rfl) ?_
  refine failuresLogged_append _ _ hlog1 ?_
  refine failuresLogged_cons_of_none _ _ (by rfl) ?_
  refine failuresLogged_append _ _ hlog2 ?_
  rfl

/-- A run in which the emulation driver fails to load and the memory patch is
denied: both failures are logged and `writeIAT` is still called. -/
theorem handleDebuggerStart_recoverable_failures_do_not_abort_witness :
    (profileAll.getEnableDbgStartEnabled = true ∧ RecoverableFailuresOnly envTechniquesFail) ∧
    ((handleDebuggerStart envTechniquesFail 1234 4194304).run []
        (Session.new "profile.xml" profileAll)).outcome = .returned () ∧
    failuresLogged ((handleDebuggerStart envTechniquesFail 1234 4194304).run []
        (Session.new "profile.xml" profileAll)).events = true ∧
    Event.call (.writeMemory 1234 4096 [49, 192, 195] 3)
        (.raised { isStdException := true, isMemoryAccessException := true,
                   what := "access denied" }) ∈
      ((handleDebuggerStart envTechniquesFail 1234 4194304).run []
        (Session.new "profile.xml" profileAll)).events ∧
    Event.call (.writeIAT "HideDebugger.dll") (.returned ()) ∈
      ((handleDebuggerStart envTechniquesFail 1234 4194304).run []
        (Session.new "profile.xml" profileAll)).events :=
  ⟨⟨rfl, envTechniquesFail_recoverable⟩,
    (handleDebuggerStart_recoverable_failures_do_not_abort envTechniquesFail []
      (Session.new "profile.xml" profileAll) 1234 4194304 rfl envTechniquesFail_recoverable).1,
    (handleDebuggerStart_recoverable_failures_do_not_abort envTechniquesFail []
      (Session.new "profile.xml" profileAll) 1234 4194304 rfl envTechniquesFail_recoverable).2.1,
    by decide, by decide⟩

/-- C2: evaluation at the failing input.  `OpenProcess` gives
`INVALID_HANDLE_VALUE`, `acquireProcessHandle` raises its error, and
`handleDebuggerStart` catches it: the call returns normally, and the error is
only logged. -/
theorem handleDebuggerStart_swallows_handle_failure :
    (handleDebuggerStart envNoHandle 1234 4194304).run [] (Session.new "profile.xml"
        profileInjectOnly) =
      { outcome := .returned ()
        self := { Session.new "profile.xml" profileInjectOnly with
          hProcess_ := INVALID_HANDLE_VALUE, injectionBeacon_ := some 1234 }
        events :=
          [ .call (.beaconCreate 1234) (.returned ()),
            .OpenProcess 1234 INVALID_HANDLE_VALUE,
            .logString "Failed to inject stealth dll (%s): %s.\n"
              ["HideDebugger.dll", "Unable to obtain process handle from debuggee."] ] } := by
  decide

/-- C3: when start-time injection is disabled, `handleDebuggerStart` returns
with the object unchanged and without any event, whatever the other flags are;
when attach-time injection is disabled, so does `handleDebuggerAttach` (no
thread is launched). -/
theorem disabled_injection_has_no_effect (E : Env) (hist : List Event) (self : Session)
    (processId baseAddress : Nat) :
    (self.currentProfile_.getEnableDbgStartEnabled = false →
      (handleDebuggerStart E processId baseAddress).run hist self =
        { outcome := .returned (), self := self, events := [] }) ∧
    (self.currentProfile_.getEnableDbgAttachEnabled = false →
      (handleDebuggerAttach processId).run hist self =
        { outcome := .returned (), self := self, events := [] }) := by
  constructor
  · intro h
    rw [run_eq_runK]
    unfold handleDebuggerStart
    simp only [runK_bind, runK_getSelf, runK_ite, h, Bool.false_eq_true, if_false, runK_pure,
      List.append_nil]
  · intro h
    rw [run_eq_runK]
    unfold handleDebuggerAttach
    simp only [runK_bind, runK_getSelf, runK_ite, h, Bool.false_eq_true, if_false, runK_pure,
      List.append_nil]

/-- A profile with both injection flags off and every driver flag on: neither
entry point does anything. -/
theorem disabled_injection_has_no_effect_witness :
    (profileNoInjection.getEnableDbgStartEnabled = false ∧
      profileNoInjection.getEnableDbgAttachEnabled = false) ∧
    (handleDebuggerStart envAllSucceed 1234 4194304).run [] (Session.new "profile.xml"
        profileNoInjection) =
      { outcome := .returned (), self := Session.new "profile.xml" profileNoInjection,
        events := [] } ∧
    (handleDebuggerAttach 1234).run [] (Session.new "profile.xml" profileNoInjection) =
      { outcome := .returned (), self := Session.new "profile.xml" profileNoInjection,
        events := [] } :=
  ⟨⟨rfl, rfl⟩,
    (disabled_injection_has_no_effect envAllSucceed [] (Session.new "profile.xml"
      profileNoInjection) 1234 4194304).1 rfl,
    (disabled_injection_has_no_effect envAllSucceed [] (Session.new "profile.xml"
      profileNoInjection) 1234 4194304).2 rfl⟩

/-- C4: when no step fails, from the same object (same profile path) and for
the same process id, `handleDebuggerStart` ends with the creation of the
payload, the profile path, the NT headers read by the rewriter, the header data
(base address, those headers), `restoreRequired = true`, and only then
`writeIAT`; `dbgAttachThread` creates the payload, sets the same profile path
and `restoreRequired = false`, sets no header data, and only then builds the
injector and calls `injectLib`.  No payload or injection event occurs
elsewhere, and the payload held by the object afterwards has these contents. -/
theorem payload_of_start_and_attach (E : Env) (hist : List Event) (self : Session)
    (processId baseAddress : Nat)
    (hStart : self.currentProfile_.getEnableDbgStartEnabled = true)
    (H : FailureFree E) :
    (∃ before ntHeaders,
      ((handleDebuggerStart E processId baseAddress).run hist self).events =
        before ++
          [ .call (.ipcCreate processId) (.returned ()),
            .call (.setProfileFile self.profilePath_) (.returned ()),
            .readNTHeaders (.returned ntHeaders),
            .call (.setIPCPEHeaderData { imageBase := baseAddress, ntHeaders := ntHeaders })
              (.returned ()),
            .call (.setPERestoreRequired true) (.returned ()),
            .call (.writeIAT E.getStealthDllPath) (.returned ()) ] ∧
      before.all (fun ev => !ev.isPayloadOrInjection) = true ∧
      ((handleDebuggerStart E processId baseAddress).run hist self).self.ipc_ =
        some { processId := processId
               profileFile := some self.profilePath_
               peHeaderData := some { imageBase := baseAddress, ntHeaders := ntHeaders }
               peRestoreRequired := some true }) ∧
    (∃ before injected after,
      ((dbgAttachThread E processId).run hist self).events =
        before ++
          [ .call (.ipcCreate processId) (.returned ()),
            .call (.setProfileFile self.profilePath_) (.returned ()),
            .call (.setPERestoreRequired false) (.returned ()),
            .call (.processCtor processId) (.returned ()),
            .call (.injectLibraryCtor E.getStealthDllPath processId) (.returned ()),
            .injectLib (.returned injected) ] ++ after ∧
      before.all (fun ev => !ev.isPayloadOrInjection) = true ∧
      after.all (fun ev => !ev.isPayloadOrInjection) = true ∧
      ((dbgAttachThread E processId).run hist self).self.ipc_ =
        some { processId := processId
               profileFile := some self.profilePath_
               peHeaderData := none
               peRestoreRequired := some false }) := by
  constructor
  · obtain ⟨drivers, hProcess, patch, ntHeaders, hrun, -, hdrivers, ⟨h, s, hpatch⟩, -, -⟩ :=
      handleDebuggerStart_run E hist self processId baseAddress hStart H.recoverable
    rw [hrun]
    refine ⟨[.call (.beaconCreate processId) (.returned ())] ++ drivers ++
        [.OpenProcess processId hProcess] ++ patch ++
        [ .call (.processCtor processId) (.returned ()),
          .call (.iatModifierCtor processId) (.returned ()),
          .call (.setImageBase baseAddress) (.returned ()) ], ntHeaders, ?_, ?_, rfl⟩
    · simp [iatRewriteEvents]
    · have h1 := (startDrivers_events_frame E
        (hist ++ [.call (.beaconCreate processId) (.returned ())])
        { self with injectionBeacon_ := some processId }).1
      have h2 := (handleRtlGetNtGlobalFlags_events_frame E processId h s).1
      rw [← hdrivers] at h1
      rw [← hpatch] at h2
      simp only [List.all_append, h1, h2, Bool.and_true, Bool.true_and]
      rfl
  · obtain ⟨drivers, hProcess, injected, hrun, -, hdrivers⟩ :=
      dbgAttachThread_run E hist self processId H
    rw [hrun]
    refine ⟨[.call (.beaconCreate processId) (.returned ())] ++ drivers ++
        [.OpenProcess processId hProcess], injected, _, rfl, ?_, ?_, rfl⟩
    · have h1 := (startDrivers_events_frame E
        (hist ++ [.call (.beaconCreate processId) (.returned ())])
        { self with injectionBeacon_ := some processId }).1
      rw [← hdrivers] at h1
      simp only [List.all_append, h1, Bool.and_true, Bool.true_and]
      rfl
    · cases injected <;> rfl

/-- The two paths on a profile with every technique enabled. -/
theorem payload_of_start_and_attach_witness :
    (profileAll.getEnableDbgStartEnabled = true ∧ FailureFree envAllSucceed) ∧
    ((handleDebuggerStart envAllSucceed 1234 4194304).run []
        (Session.new "profile.xml" profileAll)).self.ipc_ =
      some { processId := 1234
             profileFile := some "profile.xml"
             peHeaderData := some { imageBase := 4194304, ntHeaders := [80, 69, 0, 0] }
             peRestoreRequired := some true } ∧
    ((dbgAttachThread envAllSucceed 1234).run []
        (Session.new "profile.xml" profileAll)).self.ipc_ =
      some { processId := 1234
             profileFile := some "profile.xml"
             peHeaderData := none
             peRestoreRequired := some false } := by
  have h := payload_of_start_and_attach envAllSucceed [] (Session.new "profile.xml" profileAll)
    1234 4194304 rfl envAllSucceed_failureFree
  exact ⟨⟨rfl, envAllSucceed_failureFree⟩, by decide, h.2.choose_spec.choose_spec.choose_spec.2.2.2⟩

/-- C8: in a failure-free `handleDebuggerStart` with start-time injection and
the hook driver load enabled, the requests sent to the hook driver are exactly
one load request followed by one `IOCTL_STEALTHDRIVER_ENABLE_HOOKS` request per
selected hook, with the selector `SH_NtSetInformationThread` first and
`SH_NtQueryInformationProcess` second; the emulation driver receives no call at
all when its load flag is off; and `writeIAT` is executed. -/
theorem hook_driver_requests_on_start (E : Env) (hist : List Event) (self : Session)
    (processId baseAddress : Nat)
    (hStart : self.currentProfile_.getEnableDbgStartEnabled = true)
    (hHook : self.currentProfile_.getStealthDriverLoad = true)
    (H : FailureFree E) :
    requestsTo .stealthDriver_
        ((handleDebuggerStart E processId baseAddress).run hist self).events =
      [Call.startDriver .stealthDriver_ E.getStealthDriverResource
          self.currentProfile_.getStealthDriverCustomName] ++
        (if self.currentProfile_.getStealthDriverNtSetInformationThread = true then
          [Call.setMode .stealthDriver_ E.IOCTL_STEALTHDRIVER_ENABLE_HOOKS
            (.hook .SH_NtSetInformationThread) E.sizeofStealthHook] else []) ++
        (if self.currentProfile_.getStealthDriverNtQueryInformationProcess = true then
          [Call.setMode .stealthDriver_ E.IOCTL_STEALTHDRIVER_ENABLE_HOOKS
            (.hook .SH_NtQueryInformationProcess) E.sizeofStealthHook] else []) ∧
    (self.currentProfile_.getRDTSCDriverLoad = false →
      ((handleDebuggerStart E processId baseAddress).run hist self).events.filter
        (Event.onDriver .rdtscDriver_) = []) ∧
    Event.call (.writeIAT E.getStealthDllPath) (.returned ()) ∈
      ((handleDebuggerStart E processId baseAddress).run hist self).events := by
  obtain ⟨drivers, hProcess, patch, ntHeaders, hrun, -, hdrivers, ⟨h, s, hpatch⟩, -, -⟩ :=
    handleDebuggerStart_run E hist self processId baseAddress hStart H.recoverable
  rw [hrun]
  have h1 := startDrivers_failureFree E H
    (hist ++ [.call (.beaconCreate processId) (.returned ())])
    { self with injectionBeacon_ := some processId }
  have h2 := (startDrivers_events_frame E
    (hist ++ [.call (.beaconCreate processId) (.returned ())])
    { self with injectionBeacon_ := some processId }).2
  have h3 := (handleRtlGetNtGlobalFlags_events_frame E processId h s).2
  rw [← hdrivers] at h1 h2
  rw [← hpatch] at h3
  dsimp only at h1 h2
  rw [if_pos hHook] at h1
  refine ⟨?_, fun hOff => ?_, ?_⟩
  · simp only [requestsTo, List.filterMap_append] at h1 h3 ⊢
    rw [h1, h3.1 .stealthDriver_]
    simp [iatRewriteEvents, Event.requestTo]
  · simp only [List.filter_append, h2 hOff, h3.2 .rdtscDriver_]
    rfl
  · simp [iatRewriteEvents]

/-- The scenario of a profile that enables only the hook driver with only the
thread-information hook: one load request, one configure request with the
thread-information selector, no call to the emulation driver, and `writeIAT`. -/
theorem hook_driver_requests_on_start_witness :
    (profileThreadHookOnly.getEnableDbgStartEnabled = true ∧
      profileThreadHookOnly.getStealthDriverLoad = true ∧ FailureFree envAllSucceed) ∧
    requestsTo .stealthDriver_
        ((handleDebuggerStart envAllSucceed 1234 4194304).run []
          (Session.new "profile.xml" profileThreadHookOnly)).events =
      [ Call.startDriver .stealthDriver_ { id := 2 } "stealth",
        Call.setMode .stealthDriver_ 2236424 (.hook .SH_NtSetInformationThread) 4 ] ∧
    ((handleDebuggerStart envAllSucceed 1234 4194304).run []
        (Session.new "profile.xml" profileThreadHookOnly)).events.filter
      (Event.onDriver .rdtscDriver_) = [] ∧
    Event.call (.writeIAT "HideDebugger.dll") (.returned ()) ∈
      ((handleDebuggerStart envAllSucceed 1234 4194304).run []
        (Session.new "profile.xml" profileThreadHookOnly)).events :=
  ⟨⟨rfl, rfl, envAllSucceed_failureFree⟩,
    (hook_driver_requests_on_start envAllSucceed [] (Session.new "profile.xml"
      profileThreadHookOnly) 1234 4194304 rfl rfl envAllSucceed_failureFree).1,
    (hook_driver_requests_on_start envAllSucceed [] (Session.new "profile.xml"
      profileThreadHookOnly) 1234 4194304 rfl rfl envAllSucceed_failureFree).2.1 rfl,
    (hook_driver_requests_on_start envAllSucceed [] (Session.new "profile.xml"
      profileThreadHookOnly) 1234 4194304 rfl rfl envAllSucceed_failureFree).2.2⟩

theorem envStopFails_stopFailuresAreStd : StopFailuresAreStd envStopFails := by
  intro hist d e h
  simp [envStopFails, envAllSucceed] at h
  subst h
  rfl

/-- C5: from every object and after every history, when `stopDriver` fails
only with `std::exception`s, `handleDebuggerExit` returns normally and leaves
the object unchanged; it sends `stopDriver` to the emulation driver exactly
once if the RDTSC-unload flag is set and not at all otherwise, and to the hook
driver exactly once if the stealth-driver-unload flag is set and not at all
otherwise (the load flags play no part); every `stopDriver` that raised is
logged; and `CloseHandle` is called exactly once, on the stored handle, as the
last event. -/
theorem handleDebuggerExit_stops_then_closes (E : Env) (hist : List Event) (self : Session)
    (H : StopFailuresAreStd E) :
    ∃ stops,
      (handleDebuggerExit E).run hist self =
        { outcome := .returned (), self := self,
          events := stops ++ [.CloseHandle self.hProcess_] } ∧
      stops.all (fun ev => !ev.isCloseHandle) = true ∧
      requestsTo .rdtscDriver_ stops =
        (if self.currentProfile_.getRDTSCDriverUnload = true then
          [Call.stopDriver .rdtscDriver_] else []) ∧
      requestsTo .stealthDriver_ stops =
        (if self.currentProfile_.getStealthDriverUnload = true then
          [Call.stopDriver .stealthDriver_] else []) ∧
      failuresLogged stops = true := by
  obtain ⟨-, -, h3, h4, h5, h6⟩ := stopDrivers_run E H hist self
  exact ⟨_, handleDebuggerExit_run E H hist self, h3, h4, h5, h6⟩

/-- A session that was never started, with both unload flags set and both
drivers failing to stop: both stops are attempted and logged, and the handle
is closed last. -/
theorem handleDebuggerExit_stops_then_closes_witness :
    StopFailuresAreStd envStopFails ∧
    (handleDebuggerExit envStopFails).run [] (Session.new "profile.xml" profileAll) =
      { outcome := .returned ()
        self := Session.new "profile.xml" profileAll
        events :=
          [ .isRunning .rdtscDriver_ true,
            .call (.stopDriver .rdtscDriver_)
              (.raised { isStdException := true, isMemoryAccessException := false,
                         what := "service not stopped" }),
            .logString "Error while trying to stop RDTSC driver: %s\n" ["service not stopped"],
            .isRunning .stealthDriver_ true,
            .call (.stopDriver .stealthDriver_)
              (.raised { isStdException := true, isMemoryAccessException := false,
                         what := "service not stopped" }),
            .logString "Error while trying to stop stealth driver: %s.\n"
              ["service not stopped"],
            .CloseHandle INVALID_HANDLE_VALUE ] } := by
  obtain ⟨stops, h, -⟩ := handleDebuggerExit_stops_then_closes envStopFails []
    (Session.new "profile.xml" profileAll) envStopFails_stopFailuresAreStd
  refine ⟨envStopFails_stopFailuresAreStd, ?_⟩
  rw [h]
  have h2 : stops ++ [Event.CloseHandle (Session.new "profile.xml" profileAll).hProcess_] =
      ((handleDebuggerExit envStopFails).run [] (Session.new "profile.xml" profileAll)).events := by
    rw [h]
  rw [h2]
  decide

/-- C6, counterexample: after a start that acquired the handle `42`, two
calls of `handleDebuggerExit` in succession each call `CloseHandle` on `42`:
the second call releases the handle that the first already released, and the
handle is released twice over the two calls, not once. -/
theorem second_exit_closes_the_handle_again :
    sessionAfterStart.hProcess_ = 42 ∧
    ((handleDebuggerExit envAllSucceed).run historyAfterStart sessionAfterStart).events =
      [.CloseHandle 42] ∧
    ((handleDebuggerExit envAllSucceed).run
        (historyAfterStart ++
          ((handleDebuggerExit envAllSucceed).run historyAfterStart sessionAfterStart).events)
        ((handleDebuggerExit envAllSucceed).run historyAfterStart sessionAfterStart).self).events =
      [.CloseHandle 42] ∧
    List.count (Event.CloseHandle 42)
      (((handleDebuggerExit envAllSucceed).run historyAfterStart sessionAfterStart).events ++
        ((handleDebuggerExit envAllSucceed).run
          (historyAfterStart ++
            ((handleDebuggerExit envAllSucceed).run historyAfterStart sessionAfterStart).events)
          ((handleDebuggerExit envAllSucceed).run historyAfterStart
            sessionAfterStart).self).events) = 2 := by
  decide

/-- C6, amended: when `stopDriver` fails only with `std::exception`s, two
calls of `handleDebuggerExit` in succession both return normally; the first
call does not reset the handle member, and each of the two calls issues
exactly one `CloseHandle`, on the same stored handle value. -/
theorem handleDebuggerExit_twice (E : Env) (hist : List Event) (self : Session)
    (H : StopFailuresAreStd E) :
    ((handleDebuggerExit E).run hist self).outcome = .returned () ∧
    ((handleDebuggerExit E).run hist self).self = self ∧
    ((handleDebuggerExit E).run hist self).events.filter Event.isCloseHandle =
      [.CloseHandle self.hProcess_] ∧
    ((handleDebuggerExit E).run (hist ++ ((handleDebuggerExit E).run hist self).events)
        ((handleDebuggerExit E).run hist self).self).outcome = .returned () ∧
    ((handleDebuggerExit E).run (hist ++ ((handleDebuggerExit E).run hist self).events)
        ((handleDebuggerExit E).run hist self).self).events.filter Event.isCloseHandle =
      [.CloseHandle self.hProcess_] := by
  have key : ∀ h, ((handleDebuggerExit E).run h self).events.filter Event.isCloseHandle =
      [.CloseHandle self.hProcess_] := by
    intro h
    rw [handleDebuggerExit_run E H h self]
    have h3 := (stopDrivers_run E H h self).2.2.1
    simp only [List.filter_append]
    rw [List.filter_eq_nil_iff.2]
    · rfl
    · intro ev hev
      have := List.all_eq_true.1 h3 ev hev
      simpa using this
  have hself : ((handleDebuggerExit E).run hist self).self = self := by
    rw [handleDebuggerExit_run E H hist self]
  refine ⟨?_, hself, key hist, ?_, ?_⟩
  · rw [handleDebuggerExit_run E H hist self]
  · rw [hself, handleDebuggerExit_run E H _ self]
  · rw [hself]
    exact key _

/-- Two exits on a session that was never started, with both drivers failing
to stop: neither call raises and each closes the stored handle once. -/
theorem handleDebuggerExit_twice_witness :
    StopFailuresAreStd envStopFails ∧
    ((handleDebuggerExit envStopFails).run [] (Session.new "profile.xml" profileAll)).outcome =
      .returned () ∧
    ((handleDebuggerExit envStopFails).run
        ([] ++ ((handleDebuggerExit envStopFails).run []
          (Session.new "profile.xml" profileAll)).events)
        ((handleDebuggerExit envStopFails).run []
          (Session.new "profile.xml" profileAll)).self).events.filter Event.isCloseHandle =
      [.CloseHandle INVALID_HANDLE_VALUE] :=
  ⟨envStopFails_stopFailuresAreStd,
    (handleDebuggerExit_twice envStopFails [] (Session.new "profile.xml" profileAll)
      envStopFails_stopFailuresAreStd).1,
    (handleDebuggerExit_twice envStopFails [] (Session.new "profile.xml" profileAll)
      envStopFails_stopFailuresAreStd).2.2.2.2⟩

/-- C7: when the emulation driver load is enabled and the load request
succeeds, `startDrivers` sends exactly one configure request to the emulation
driver.  In constant mode it carries `(DWORD)IOCTL_RDTSCEMU_METHOD_ALWAYS_CONST`
and the value `0`, whatever the delta; otherwise it carries
`(DWORD)IOCTL_RDTSCEMU_METHOD_INCREASING` and the profile's delta converted to
`unsigned int`, which is the delta itself when it fits 32 bits.  The buffer
size is `sizeof(unsigned int)` in both modes. -/
theorem rdtsc_configure_request (E : Env) (hist : List Event) (self : Session)
    (hLoad : self.currentProfile_.getRDTSCDriverLoad = true)
    (hOk : E.raises hist (.startDriver .rdtscDriver_ E.getRDTSCDriverResource
      self.currentProfile_.getRDTSCDriverCustomName) = none) :
    (self.currentProfile_.getRDTSCDriverMode = .constant →
      configureRequestsTo .rdtscDriver_ ((startDrivers E).run hist self).events =
        [(DWORD E.IOCTL_RDTSCEMU_METHOD_ALWAYS_CONST, .uint 0, sizeofUnsignedInt)]) ∧
    (self.currentProfile_.getRDTSCDriverMode = .increasing →
      configureRequestsTo .rdtscDriver_ ((startDrivers E).run hist self).events =
        [(DWORD E.IOCTL_RDTSCEMU_METHOD_INCREASING,
          .uint (self.currentProfile_.getRDTSCDriverDelta % 2 ^ 32), sizeofUnsignedInt)]) ∧
    (self.currentProfile_.getRDTSCDriverMode = .increasing →
      self.currentProfile_.getRDTSCDriverDelta < 2 ^ 32 →
      configureRequestsTo .rdtscDriver_ ((startDrivers E).run hist self).events =
        [(DWORD E.IOCTL_RDTSCEMU_METHOD_INCREASING,
          .uint self.currentProfile_.getRDTSCDriverDelta, sizeofUnsignedInt)]) := by
  have key : configureRequestsTo .rdtscDriver_ ((startDrivers E).run hist self).events =
      [(if self.currentProfile_.getRDTSCDriverMode = .constant then
          DWORD E.IOCTL_RDTSCEMU_METHOD_ALWAYS_CONST
        else DWORD E.IOCTL_RDTSCEMU_METHOD_INCREASING,
        .uint (toUnsignedInt (if self.currentProfile_.getRDTSCDriverMode = .constant then 0
          else self.currentProfile_.getRDTSCDriverDelta)), sizeofUnsignedInt)] := by
    show (startDrivers E).runK hist self (fun _ _ evs =>
      configureRequestsTo .rdtscDriver_ evs =
        [(if self.currentProfile_.getRDTSCDriverMode = .constant then
            DWORD E.IOCTL_RDTSCEMU_METHOD_ALWAYS_CONST
          else DWORD E.IOCTL_RDTSCEMU_METHOD_INCREASING,
          .uint (toUnsignedInt (if self.currentProfile_.getRDTSCDriverMode = .constant then 0
            else self.currentProfile_.getRDTSCDriverDelta)), sizeofUnsignedInt)])
    unfold startDrivers
    repeat' first
      | apply step_bind
      | apply step_tryCatch
      | apply step_pure
      | apply step_getSelf
      | apply step_logString
      | apply step_getDriverPath
      | refine step_call_of_none E _ _ _ _ (by simpa using hOk) ?_
      | apply runK_call_cases
      | rw [if_pos hLoad]
      | apply step_ite
      | apply step_propIte
      | intro _
      | dsimp only
    all_goals first
      | rfl
      | contradiction
  rw [key]
  refine ⟨fun h => ?_, fun h => ?_, fun h hlt => ?_⟩
  · rw [h]; rfl
  · rw [h]; rfl
  · have hm : toUnsignedInt self.currentProfile_.getRDTSCDriverDelta =
        self.currentProfile_.getRDTSCDriverDelta := Nat.mod_eq_of_lt hlt
    rw [h, if_neg (by decide), if_neg (by decide), hm]

/-- Drift mode with delta `65535` and constant mode with the same delta: the
control codes are the two macros, the values are `65535` and `0`, and the
buffer size is the same. -/
theorem rdtsc_configure_request_witness :
    (profileAll.getRDTSCDriverLoad = true ∧ profileAll.getRDTSCDriverMode = .increasing ∧
      profileAll.getRDTSCDriverDelta < 2 ^ 32 ∧
      profileConstantMode.getRDTSCDriverMode = .constant) ∧
    configureRequestsTo .rdtscDriver_
        ((startDrivers envAllSucceed).run [] (Session.new "profile.xml" profileAll)).events =
      [(2236420, .uint 65535, 4)] ∧
    configureRequestsTo .rdtscDriver_
        ((startDrivers envAllSucceed).run []
          (Session.new "profile.xml" profileConstantMode)).events =
      [(2236416, .uint 0, 4)] :=
  ⟨⟨rfl, rfl, by decide, rfl⟩,
    (rdtsc_configure_request envAllSucceed [] (Session.new "profile.xml" profileAll) rfl
      rfl).2.2 rfl (by decide),
    (rdtsc_configure_request envAllSucceed [] (Session.new "profile.xml" profileConstantMode)
      rfl rfl).1 rfl⟩

theorem envThreadHookRejected_driverStd : DriverFailuresAreStd envThreadHookRejected := by
  intro hist c e h _
  cases c with
  | setMode d code p n =>
    rcases d <;> rcases p with _ | m <;> try rcases m
    all_goals first
      | (simp [envThreadHookRejected, envAllSucceed] at h; subst h; rfl)
      | simp [envThreadHookRejected, envAllSucceed] at h
  | _ => simp [envThreadHookRejected, envAllSucceed] at h

/-- C10, counterexample: the hook driver is loaded, both hooks are selected,
and the request enabling the thread-information hook fails; the request
enabling the process-information hook is not issued. -/
theorem thread_hook_failure_skips_process_hook :
    profileAll.getStealthDriverNtSetInformationThread = true ∧
    profileAll.getStealthDriverNtQueryInformationProcess = true ∧
    requestsTo .stealthDriver_
        ((startDrivers envThreadHookRejected).run []
          (Session.new "profile.xml" profileAll)).events =
      [ Call.startDriver .stealthDriver_ { id := 2 } "stealth",
        Call.setMode .stealthDriver_ 2236424 (.hook .SH_NtSetInformationThread) 4 ] ∧
    Event.call (.setMode .stealthDriver_ 2236424 (.hook .SH_NtSetInformationThread) 4)
        (.raised { isStdException := true, isMemoryAccessException := false,
                   what := "ioctl rejected" }) ∈
      ((startDrivers envThreadHookRejected).run []
        (Session.new "profile.xml" profileAll)).events ∧
    Call.setMode .stealthDriver_ 2236424 (.hook .SH_NtQueryInformationProcess) 4 ∉
      requestsTo .stealthDriver_
        ((startDrivers envThreadHookRejected).run []
          (Session.new "profile.xml" profileAll)).events := by
  decide

/-- C10, amended: when driver requests fail only with `std::exception`s and
the hook driver load is enabled, `startDrivers` returns normally and issues
the hook driver's load request whatever happened to the emulation driver, and,
when no request to the hook driver fails, one configure request per selected
hook after it.  With both hooks selected and the load successful, a failure of
the request enabling the thread-information hook is caught and logged, and the
request enabling the process-information hook is not issued. -/
theorem startDrivers_failure_isolation (E : Env) (hist : List Event) (self : Session)
    (H : DriverFailuresAreStd E)
    (hHook : self.currentProfile_.getStealthDriverLoad = true) :
    ((startDrivers E).run hist self).outcome = .returned () ∧
    failuresLogged ((startDrivers E).run hist self).events = true ∧
    Call.startDriver .stealthDriver_ E.getStealthDriverResource
        self.currentProfile_.getStealthDriverCustomName ∈
      requestsTo .stealthDriver_ ((startDrivers E).run hist self).events ∧
    ((∀ h c, c.isRequestTo .stealthDriver_ = true → E.raises h c = none) →
      requestsTo .stealthDriver_ ((startDrivers E).run hist self).events =
        [Call.startDriver .stealthDriver_ E.getStealthDriverResource
            self.currentProfile_.getStealthDriverCustomName] ++
          (if self.currentProfile_.getStealthDriverNtSetInformationThread = true then
            [Call.setMode .stealthDriver_ E.IOCTL_STEALTHDRIVER_ENABLE_HOOKS
              (.hook .SH_NtSetInformationThread) E.sizeofStealthHook] else []) ++
          (if self.currentProfile_.getStealthDriverNtQueryInformationProcess = true then
            [Call.setMode .stealthDriver_ E.IOCTL_STEALTHDRIVER_ENABLE_HOOKS
              (.hook .SH_NtQueryInformationProcess) E.sizeofStealthHook] else [])) ∧
    (self.currentProfile_.getStealthDriverNtSetInformationThread = true →
      self.currentProfile_.getStealthDriverNtQueryInformationProcess = true →
      (∀ h, E.raises h (.startDriver .stealthDriver_ E.getStealthDriverResource
        self.currentProfile_.getStealthDriverCustomName) = none) →
      (∀ h, ∃ e, E.raises h (.setMode .stealthDriver_ E.IOCTL_STEALTHDRIVER_ENABLE_HOOKS
        (.hook .SH_NtSetInformationThread) E.sizeofStealthHook) = some e) →
      requestsTo .stealthDriver_ ((startDrivers E).run hist self).events =
        [ Call.startDriver .stealthDriver_ E.getStealthDriverResource
            self.currentProfile_.getStealthDriverCustomName,
          Call.setMode .stealthDriver_ E.IOCTL_STEALTHDRIVER_ENABLE_HOOKS
            (.hook .SH_NtSetInformationThread) E.sizeofStealthHook ]) := by
  obtain ⟨h1, -, h3⟩ := startDrivers_returns E H hist self
  refine ⟨h1, h3, ?_, ?_, ?_⟩
  · show (startDrivers E).runK hist self (fun _ _ evs =>
      Call.startDriver .stealthDriver_ E.getStealthDriverResource
        self.currentProfile_.getStealthDriverCustomName ∈ requestsTo .stealthDriver_ evs)
    unfold startDrivers
    repeat' first
      | apply step_bind
      | apply step_tryCatch
      | apply step_pure
      | apply step_getSelf
      | apply step_logString
      | apply step_getDriverPath
      | refine runK_call_cases_driver E H _ _ _ _ (by rfl) ?_ ?_
      | rw [if_pos hHook]
      | apply step_ite
      | intro _
      | rw [if_pos (by assumption)]
      | dsimp only
    all_goals first
      | contradiction
      | simp [requestsTo, Event.requestTo]
  · intro hNone
    show (startDrivers E).runK hist self (fun _ _ evs => requestsTo .stealthDriver_ evs =
        [Call.startDriver .stealthDriver_ E.getStealthDriverResource
            self.currentProfile_.getStealthDriverCustomName] ++
          (if self.currentProfile_.getStealthDriverNtSetInformationThread = true then
            [Call.setMode .stealthDriver_ E.IOCTL_STEALTHDRIVER_ENABLE_HOOKS
              (.hook .SH_NtSetInformationThread) E.sizeofStealthHook] else []) ++
          (if self.currentProfile_.getStealthDriverNtQueryInformationProcess = true then
            [Call.setMode .stealthDriver_ E.IOCTL_STEALTHDRIVER_ENABLE_HOOKS
              (.hook .SH_NtQueryInformationProcess) E.sizeofStealthHook] else []))
    unfold startDrivers
    repeat' first
      | apply step_bind
      | apply step_tryCatch
      | apply step_pure
      | apply step_getSelf
      | apply step_logString
      | apply step_getDriverPath
      | refine step_call_of_none E _ _ _ _ (hNone _ _ (by rfl)) ?_
      | refine runK_call_cases_driver E H _ _ _ _ (by rfl) ?_ ?_
      | rw [if_pos hHook]
      | apply step_ite
      | intro _
      | rw [if_pos (by assumption)]
      | dsimp only
    all_goals first
      | contradiction
      | rfl
      | (simp only [*, if_true, if_false]; rfl)
  · intro hT hP hLoadOk hFail
    show (startDrivers E).runK hist self (fun _ _ evs => requestsTo .stealthDriver_ evs =
        [ Call.startDriver .stealthDriver_ E.getStealthDriverResource
            self.currentProfile_.getStealthDriverCustomName,
          Call.setMode .stealthDriver_ E.IOCTL_STEALTHDRIVER_ENABLE_HOOKS
            (.hook .SH_NtSetInformationThread) E.sizeofStealthHook ])
    unfold startDrivers
    repeat' first
      | apply step_bind
      | apply step_tryCatch
      | apply step_pure
      | apply step_getSelf
      | apply step_logString
      | apply step_getDriverPath
      | refine step_call_of_none E _ _ _ _ (hLoadOk _) ?_
      | refine step_call_of_raises E H _ _ _ _ (by rfl) (hFail _) ?_
      | refine runK_call_cases_driver E H _ _ _ _ (by rfl) ?_ ?_
      | rw [if_pos hHook]
      | rw [if_pos hT]
      | rw [if_pos hP]
      | apply step_ite
      | intro _
      | rw [if_pos (by assumption)]
      | dsimp only
    all_goals first
      | rfl
      | contradiction

/-- The hook driver rejects the thread-information hook: the failure is
logged, `startDrivers` returns, and the process-information hook is skipped. -/
theorem startDrivers_failure_isolation_witness :
    (DriverFailuresAreStd envThreadHookRejected ∧ profileAll.getStealthDriverLoad = true) ∧
    ((startDrivers envThreadHookRejected).run []
        (Session.new "profile.xml" profileAll)).outcome = .returned () ∧
    requestsTo .stealthDriver_
        ((startDrivers envThreadHookRejected).run []
          (Session.new "profile.xml" profileAll)).events =
      [ Call.startDriver .stealthDriver_ { id := 2 } "stealth",
        Call.setMode .stealthDriver_ 2236424 (.hook .SH_NtSetInformationThread) 4 ] :=
  ⟨⟨envThreadHookRejected_driverStd, rfl⟩,
    (startDrivers_failure_isolation envThreadHookRejected []
      (Session.new "profile.xml" profileAll) envThreadHookRejected_driverStd rfl).1,
    (startDrivers_failure_isolation envThreadHookRejected []
      (Session.new "profile.xml" profileAll) envThreadHookRejected_driverStd rfl).2.2.2.2
      rfl rfl (fun _ => rfl) (fun _ => ⟨_, rfl⟩)⟩

/-- C9: with attach-time injection enabled, the run of `handleDebuggerAttach`
on the calling thread returns normally, leaves the object unchanged (no
beacon, no handle, no payload) and consists of exactly one event, the launch of
the thread that runs `dbgAttachThread(processId)`: no driver call, no
`OpenProcess`, no payload or injection call is made by the calling thread,
whatever the environment would answer to them. -/
theorem handleDebuggerAttach_only_dispatches (hist : List Event) (self : Session)
    (processId : Nat)
    (hAttach : self.currentProfile_.getEnableDbgAttachEnabled = true) :
    (handleDebuggerAttach processId).run hist self =
      { outcome := .returned (), self := self, events := [.threadLaunch processId] } ∧
    ((handleDebuggerAttach processId).run hist self).events.all
      (fun ev => !ev.isPayloadOrInjection) = true ∧
    (∀ d, ((handleDebuggerAttach processId).run hist self).events.filter
      (Event.onDriver d) = []) ∧
    (∀ h, Event.OpenProcess processId h ∉
      ((handleDebuggerAttach processId).run hist self).events) ∧
    Event.call (.beaconCreate processId) (.returned ()) ∉
      ((handleDebuggerAttach processId).run hist self).events := by
  have key : (handleDebuggerAttach processId).run hist self =
      { outcome := .returned (), self := self, events := [.threadLaunch processId] } := by
    rw [run_eq_runK]
    unfold handleDebuggerAttach
    simp only [runK_bind, runK_getSelf, runK_ite, hAttach, if_true, runK_emit,
      List.nil_append]
  rw [key]
  refine ⟨rfl, by rfl, fun _ => by rfl, fun h => ?_, ?_⟩
  · simp
  · simp

/-- The attach event on a profile with every technique enabled: the calling
thread only launches the thread, while the run of `dbgAttachThread` is the one
that contains `injectLib`. -/
theorem handleDebuggerAttach_only_dispatches_witness :
    profileAll.getEnableDbgAttachEnabled = true ∧
    (handleDebuggerAttach 1234).run [] (Session.new "profile.xml" profileAll) =
      { outcome := .returned (), self := Session.new "profile.xml" profileAll,
        events := [.threadLaunch 1234] } ∧
    Event.injectLib (.returned true) ∈
      ((dbgAttachThread envAllSucceed 1234).run [.threadLaunch 1234]
        (Session.new "profile.xml" profileAll)).events :=
  ⟨rfl,
    (handleDebuggerAttach_only_dispatches [] (Session.new "profile.xml" profileAll) 1234
      rfl).1,
    by decide⟩

end uberstealth
